import Mathlib

/-! # Red Book "triangles" sample: shader loading and the display callback

A shallow embedding of `src/Redbook-C1/Application.cpp`.

* The OpenGL driver is external to the program.  It is modelled as an arbitrary
  deterministic state machine (`Driver σ`): every entry point the program calls is a
  function of the driver state, returning the value the C code receives (a handle, the
  value written through an out-parameter) and the next state.
* Every run records the driver calls it makes, in order, as a list of `GLEvent`s
  (arguments and the values the driver gave back).
* The file system is a map from paths to byte contents.
* The translation unit is taken as compiled on Linux without `WIN32` and without
  `_DEBUG` (neither is defined anywhere in the repository), `long` being 64 bits wide
  and `int` 32 bits wide.
* C++ behaviour that does not return to the caller (undefined behaviour, an uncaught
  exception) is a `Fault`.
-/

namespace RedBook

/-! ## OpenGL scalar types and constants (values from the OpenGL registry) -/

abbrev GLuint := Nat
abbrev GLenum := Nat
abbrev GLint := Int
abbrev GLsizei := Int
abbrev GLchar := Nat
abbrev GLbitfield := Nat

def GL_NONE : GLenum := 0
def GL_FALSE : Nat := 0
def GL_TRIANGLES : GLenum := 0x0004
def GL_FLOAT : GLenum := 0x1406
def GL_COLOR_BUFFER_BIT : GLbitfield := 0x4000
def GL_FRAGMENT_SHADER : GLenum := 0x8B30
def GL_VERTEX_SHADER : GLenum := 0x8B31
def GL_COMPILE_STATUS : GLenum := 0x8B81
def GL_LINK_STATUS : GLenum := 0x8B82
def GL_ARRAY_BUFFER : GLenum := 0x8892
def GL_STATIC_DRAW : GLenum := 0x88E4

/-! ## Globals of `Application.cpp` -/

/-- Enumerator `Triangles` of `enum VAO_IDs`. -/
def Triangles : Nat := 0
/-- Enumerator `NumVAOs` of `enum VAO_IDs`. -/
def NumVAOs : Nat := 1
/-- Enumerator `ArrayBuffer` of `enum Buffer_IDs`. -/
def ArrayBuffer : Nat := 0
/-- Enumerator `NumBuffers` of `enum Buffer_IDs`. -/
def NumBuffers : Nat := 1
/-- Enumerator `vPosition` of `enum Attrib_IDs`. -/
def vPosition : GLuint := 0
/-- The constant `const GLuint NumVertices = 6`. -/
def NumVertices : GLuint := 6

/-- The global arrays `GLuint VAOs[NumVAOs]` and `GLuint Buffers[NumBuffers]`. -/
structure Globals where
  VAOs : List GLuint
  Buffers : List GLuint
  deriving DecidableEq, Repr

/-- The struct `ShaderInfo`.  `filename` is a `const char*`: `none` is the null pointer. -/
structure ShaderInfo where
  type : GLenum
  filename : Option String
  shader : GLuint
  deriving DecidableEq, Repr

/-! ## The driver and the record of calls -/

/-- One driver call as the program made it: its arguments and, where the call hands a
value back, that value.  `glDeleteProgram` is part of the vocabulary although the
program never issues it. -/
inductive GLEvent where
  | glCreateProgram (result : GLuint)
  | glCreateShader (type : GLenum) (result : GLuint)
  | glShaderSource (shader : GLuint) (count : GLsizei) (string : List GLchar)
  | glCompileShader (shader : GLuint)
  | glGetShaderiv (shader : GLuint) (pname : GLenum) (params : GLint)
  | glAttachShader (program : GLuint) (shader : GLuint)
  | glLinkProgram (program : GLuint)
  | glGetProgramiv (program : GLuint) (pname : GLenum) (params : GLint)
  | glDeleteShader (shader : GLuint)
  | glDeleteProgram (program : GLuint)
  | glUseProgram (program : GLuint)
  | glGenVertexArrays (n : GLsizei) (arrays : List GLuint)
  | glBindVertexArray (array : GLuint)
  | glGenBuffers (n : GLsizei) (buffers : List GLuint)
  | glBindBuffer (target : GLenum) (buffer : GLuint)
  | glBufferData (target : GLenum) (size : Nat) (usage : GLenum)
  | glVertexAttribPointer (index : GLuint) (size : GLint) (type : GLenum)
      (normalized : Nat) (stride : GLsizei) (pointer : Nat)
  | glEnableVertexAttribArray (index : GLuint)
  | glClear (mask : GLbitfield)
  | glDrawArrays (mode : GLenum) (first : GLint) (count : GLsizei)
  | glFinish
  deriving DecidableEq, Repr

/-- The driver entry points the program calls, over a driver state `σ`.  A `glGet*iv`
entry returns the value found in the out-parameter after the call (the C locals
`compiled` and `linked` are not initialised, so this is whatever the driver leaves there);
a `glGen*` entry takes the array as it stands and returns its contents after the call;
`glShaderSource` takes the one null-terminated string passed with `length == NULL`. -/
structure Driver (σ : Type) where
  glCreateProgram : σ → GLuint × σ
  glCreateShader : GLenum → σ → GLuint × σ
  glShaderSource : GLuint → GLsizei → List GLchar → σ → σ
  glCompileShader : GLuint → σ → σ
  glGetShaderiv : GLuint → GLenum → σ → GLint × σ
  glAttachShader : GLuint → GLuint → σ → σ
  glLinkProgram : GLuint → σ → σ
  glGetProgramiv : GLuint → GLenum → σ → GLint × σ
  glDeleteShader : GLuint → σ → σ
  glUseProgram : GLuint → σ → σ
  glGenVertexArrays : GLsizei → List GLuint → σ → List GLuint × σ
  glBindVertexArray : GLuint → σ → σ
  glGenBuffers : GLsizei → List GLuint → σ → List GLuint × σ
  glBindBuffer : GLenum → GLuint → σ → σ
  glBufferData : GLenum → Nat → GLenum → σ → σ
  glVertexAttribPointer : GLuint → GLint → GLenum → Nat → GLsizei → Nat → σ → σ
  glEnableVertexAttribArray : GLuint → σ → σ
  glClear : GLbitfield → σ → σ
  glDrawArrays : GLenum → GLint → GLsizei → σ → σ
  glFinish : σ → σ

/-- The file system: the byte content of each path that can be opened. -/
abbrev FileSystem := String → Option (List GLchar)

/-- Ways in which the C++ code fails to return to its caller. -/
inductive Fault where
  /-- Call of `fopen` on a null path. -/
  | nullFilename
  /-- The sum `len + 1` overflows `int`. -/
  | lengthOverflow
  /-- The expression `new GLchar[len + 1]` throws on a negative length. -/
  | badArrayNewLength
  /-- Both `fread` and `source[len] = 0` write outside a zero-length buffer. -/
  | bufferOverrun
  /-- A loop over the `ShaderInfo` array runs past its end without meeting `GL_NONE`. -/
  | noSentinel
  deriving DecidableEq, Repr

/-! ## `ReadShader` -/

def INT_MAX : Int := 2 ^ 31 - 1

/-- Conversion of a `long` to `int` (reduction modulo `2 ^ 32` into the signed range). -/
def toInt (n : Int) : Int := (n + 2 ^ 31) % 2 ^ 32 - 2 ^ 31

/-- The function `ReadShader` (lines 26-55).  `.ok none` is the `NULL` return. -/
def ReadShader (fs : FileSystem) : Option String → Except Fault (Option (List GLchar))
  | none => .error .nullFilename
  | some filename =>
    match fs filename with
    | none => .ok none
    | some bytes =>
      -- fseek(infile, 0, SEEK_END); int len = ftell(infile);
      let len : Int := toInt bytes.length
      -- GLchar* source = new GLchar[len + 1];
      if len = INT_MAX then .error .lengthOverflow
      else if len + 1 < 0 then .error .badArrayNewLength
      -- fread(source, 1, len, infile); source[len] = 0;
      else if len < 0 then .error .bufferOverrun
      else .ok (some (bytes.take len.toNat ++ [0]))

/-! ## `LoadShaders` -/

/-- What a call leaves behind: whether it returned (and what) or faulted, the
`ShaderInfo` array, the driver state, and the driver calls made, in order.  For a call
that faults the last three are as they stood at the fault. -/
structure Run (σ : Type) (α : Type) where
  result : Except Fault α
  shaders : List ShaderInfo
  driver : σ
  events : List GLEvent

/-- The assignment `entry->shader = 0`. -/
def resetShader (e : ShaderInfo) : ShaderInfo := { e with shader := 0 }

/-- The clean-up loop `for (entry = shaders; entry->type != GL_NONE; ++entry)` of lines
72-75 and 112-115, started at the head of the given array. -/
def deleteShaders {σ : Type} (d : Driver σ) : List ShaderInfo → σ → Run σ Unit
  | [], s => ⟨.error .noSentinel, [], s, []⟩
  | entry :: rest, s =>
    if entry.type = GL_NONE then ⟨.ok (), entry :: rest, s, []⟩
    else
      -- glDeleteShader(entry->shader); entry->shader = 0;
      let r := deleteShaders d rest (d.glDeleteShader entry.shader s)
      { r with
        shaders := resetShader entry :: r.shaders
        events := GLEvent.glDeleteShader entry.shader :: r.events }

/-- The tail `clean up; return 0;` shared by lines 72-77 and 112-117. -/
def deleteAndFail {σ : Type} (d : Driver σ) (shaders : List ShaderInfo) (s : σ)
    (before : List GLEvent) : Run σ GLuint :=
  let r := deleteShaders d shaders s
  { result := match r.result with
      | .error f => .error f
      | .ok () => .ok 0
    shaders := r.shaders
    driver := r.driver
    events := before ++ r.events }

/-- The body of `LoadShaders` from the head of the `while` loop (line 65) to the end of
the function.  The array is `done ++ rest`; `entry` points at the head of `rest`. -/
def loadLoop {σ : Type} (d : Driver σ) (fs : FileSystem) (program : GLuint) :
    List ShaderInfo → List ShaderInfo → σ → Run σ GLuint
  | done, [], s => ⟨.error .noSentinel, done, s, []⟩
  | done, entry :: rest, s =>
    if entry.type = GL_NONE then
      -- lines 97-120
      let s1 := d.glLinkProgram program s
      let linked := d.glGetProgramiv program GL_LINK_STATUS s1
      if linked.1 = 0 then
        deleteAndFail d (done ++ entry :: rest) linked.2
          [GLEvent.glLinkProgram program,
            GLEvent.glGetProgramiv program GL_LINK_STATUS linked.1]
      else
        ⟨.ok program, done ++ entry :: rest, linked.2,
          [GLEvent.glLinkProgram program,
            GLEvent.glGetProgramiv program GL_LINK_STATUS linked.1]⟩
    else
      -- lines 66-94
      let created := d.glCreateShader entry.type s
      let shader := created.1
      let entry1 : ShaderInfo := { entry with shader := shader }
      match ReadShader fs entry1.filename with
      | .error f =>
        ⟨.error f, done ++ entry1 :: rest, created.2,
          [GLEvent.glCreateShader entry.type shader]⟩
      | .ok none =>
        deleteAndFail d (done ++ entry1 :: rest) created.2
          [GLEvent.glCreateShader entry.type shader]
      | .ok (some source) =>
        let s2 := d.glShaderSource shader 1 source created.2
        let s3 := d.glCompileShader shader s2
        let compiled := d.glGetShaderiv shader GL_COMPILE_STATUS s3
        if compiled.1 = 0 then
          ⟨.ok 0, done ++ entry1 :: rest, compiled.2,
            [GLEvent.glCreateShader entry.type shader,
              GLEvent.glShaderSource shader 1 source,
              GLEvent.glCompileShader shader,
              GLEvent.glGetShaderiv shader GL_COMPILE_STATUS compiled.1]⟩
        else
          let s5 := d.glAttachShader program shader compiled.2
          let r := loadLoop d fs program (done ++ [entry1]) rest s5
          { r with
            events :=
              [GLEvent.glCreateShader entry.type shader,
                GLEvent.glShaderSource shader 1 source,
                GLEvent.glCompileShader shader,
                GLEvent.glGetShaderiv shader GL_COMPILE_STATUS compiled.1,
                GLEvent.glAttachShader program shader] ++ r.events }

/-- The function `LoadShaders` (lines 57-121).  `none` is the null pointer; for it the
array component of the result is empty. -/
def LoadShaders {σ : Type} (d : Driver σ) (fs : FileSystem) :
    Option (List ShaderInfo) → σ → Run σ GLuint
  | none, s => ⟨.ok 0, [], s, []⟩
  | some shaders, s =>
    let created := d.glCreateProgram s
    let r := loadLoop d fs created.1 [] shaders created.2
    { r with events := GLEvent.glCreateProgram created.1 :: r.events }

/-! ## `init` and `display` -/

/-- The local array `shaders` of `init` (lines 171-175); the `shader` members are
zero-initialised. -/
def initShaders : List ShaderInfo :=
  [⟨GL_VERTEX_SHADER, some "triangles.vert", 0⟩,
   ⟨GL_FRAGMENT_SHADER, some "triangles.frag", 0⟩,
   ⟨GL_NONE, none, 0⟩]

/-- The first part of `init`, lines 127-168: vertex-array and buffer set-up.  It yields
the globals, the driver state and the calls made.  The `GLfloat` payload of `glBufferData`
is not recorded, only its size `sizeof(vertices)`. -/
def initBuffers {σ : Type} (d : Driver σ) (g : Globals) (s : σ) :
    Globals × σ × List GLEvent :=
  let vaos := d.glGenVertexArrays NumVAOs g.VAOs s
  let s1 := d.glBindVertexArray (vaos.1.getD Triangles 0) vaos.2
  let bufs := d.glGenBuffers NumBuffers g.Buffers s1
  let s2 := d.glBindBuffer GL_ARRAY_BUFFER (bufs.1.getD ArrayBuffer 0) bufs.2
  let s3 := d.glBufferData GL_ARRAY_BUFFER (NumVertices * 2 * 4) GL_STATIC_DRAW s2
  (⟨vaos.1, bufs.1⟩, s3,
    [GLEvent.glGenVertexArrays NumVAOs vaos.1,
      GLEvent.glBindVertexArray (vaos.1.getD Triangles 0),
      GLEvent.glGenBuffers NumBuffers bufs.1,
      GLEvent.glBindBuffer GL_ARRAY_BUFFER (bufs.1.getD ArrayBuffer 0),
      GLEvent.glBufferData GL_ARRAY_BUFFER (NumVertices * 2 * 4) GL_STATIC_DRAW])

/-- The function `init` (lines 124-198): the globals it leaves and the run of its body,
whose array component is the local `shaders`. -/
def init {σ : Type} (d : Driver σ) (fs : FileSystem) (g : Globals) (s : σ) :
    Globals × Run σ Unit :=
  let b := initBuffers d g s
  -- GLuint program = LoadShaders(shaders);
  let r := LoadShaders d fs (some initShaders) b.2.1
  match r.result with
  | .error f => (b.1, ⟨.error f, r.shaders, r.driver, b.2.2 ++ r.events⟩)
  | .ok program =>
    let s4 := d.glUseProgram program r.driver
    let s5 := d.glVertexAttribPointer vPosition 2 GL_FLOAT GL_FALSE 0 0 s4
    let s6 := d.glEnableVertexAttribArray vPosition s5
    (b.1,
      ⟨.ok (), r.shaders, s6,
        b.2.2 ++ r.events ++
          [GLEvent.glUseProgram program,
            GLEvent.glVertexAttribPointer vPosition 2 GL_FLOAT GL_FALSE 0 0,
            GLEvent.glEnableVertexAttribArray vPosition]⟩)

/-- The function `display` (lines 201-228): the driver state it leaves and the calls it
makes. -/
def display {σ : Type} (d : Driver σ) (g : Globals) (s : σ) : σ × List GLEvent :=
  let s1 := d.glClear GL_COLOR_BUFFER_BIT s
  let s2 := d.glBindVertexArray (g.VAOs.getD Triangles 0) s1
  let s3 := d.glDrawArrays GL_TRIANGLES 0 NumVertices s2
  let s4 := d.glFinish s3
  (s4,
    [GLEvent.glClear GL_COLOR_BUFFER_BIT,
      GLEvent.glBindVertexArray (g.VAOs.getD Triangles 0),
      GLEvent.glDrawArrays GL_TRIANGLES 0 NumVertices,
      GLEvent.glFinish])

/-! ## Reading a record of calls -/

/-- The handle a `glCreateShader` call returned. -/
def GLEvent.created? : GLEvent → Option GLuint
  | .glCreateShader _ h => some h
  | _ => none

/-- The stage kind a `glCreateShader` call was given. -/
def GLEvent.createdType? : GLEvent → Option GLenum
  | .glCreateShader t _ => some t
  | _ => none

/-- The handle a `glDeleteShader` call was given. -/
def GLEvent.deleted? : GLEvent → Option GLuint
  | .glDeleteShader h => some h
  | _ => none

/-- The program and stage of a `glAttachShader` call. -/
def GLEvent.attached? : GLEvent → Option (GLuint × GLuint)
  | .glAttachShader p h => some (p, h)
  | _ => none

/-- The value a `glGetShaderiv(_, GL_COMPILE_STATUS, _)` query delivered. -/
def GLEvent.compileStatus? : GLEvent → Option GLint
  | .glGetShaderiv _ pname v => if pname = GL_COMPILE_STATUS then some v else none
  | _ => none

/-- The value a `glGetProgramiv(_, GL_LINK_STATUS, _)` query delivered. -/
def GLEvent.linkStatus? : GLEvent → Option GLint
  | .glGetProgramiv _ pname v => if pname = GL_LINK_STATUS then some v else none
  | _ => none

/-- The handle a `glCreateProgram` call returned. -/
def GLEvent.createdProgram? : GLEvent → Option GLuint
  | .glCreateProgram p => some p
  | _ => none

/-- The handle a `glUseProgram` call was given. -/
def GLEvent.used? : GLEvent → Option GLuint
  | .glUseProgram p => some p
  | _ => none

/-- The handle a `glLinkProgram` call was given. -/
def GLEvent.linked? : GLEvent → Option GLuint
  | .glLinkProgram p => some p
  | _ => none

/-- The handle a `glDeleteProgram` call was given. -/
def GLEvent.deletedProgram? : GLEvent → Option GLuint
  | .glDeleteProgram p => some p
  | _ => none

/-- Whether the call is a draw command. -/
def GLEvent.isDraw : GLEvent → Bool
  | .glDrawArrays _ _ _ => true
  | _ => false

/-- Handles returned by `glCreateShader`, in call order. -/
def createdShaders (evs : List GLEvent) : List GLuint := evs.filterMap GLEvent.created?
/-- Stage kinds passed to `glCreateShader`, in call order. -/
def createdTypes (evs : List GLEvent) : List GLenum := evs.filterMap GLEvent.createdType?
/-- Handles passed to `glDeleteShader`, in call order. -/
def deletedShaders (evs : List GLEvent) : List GLuint := evs.filterMap GLEvent.deleted?
/-- The (program, stage) pairs passed to `glAttachShader`, in call order. -/
def attachedShaders (evs : List GLEvent) : List (GLuint × GLuint) :=
  evs.filterMap GLEvent.attached?
/-- Replies to the compile-status queries, in call order. -/
def compileReplies (evs : List GLEvent) : List GLint := evs.filterMap GLEvent.compileStatus?
/-- Replies to the link-status queries, in call order. -/
def linkReplies (evs : List GLEvent) : List GLint := evs.filterMap GLEvent.linkStatus?
/-- Handles returned by `glCreateProgram`, in call order. -/
def createdPrograms (evs : List GLEvent) : List GLuint := evs.filterMap GLEvent.createdProgram?
/-- Handles passed to `glUseProgram`, in call order. -/
def usedPrograms (evs : List GLEvent) : List GLuint := evs.filterMap GLEvent.used?
/-- Handles passed to `glLinkProgram`, in call order. -/
def linkedPrograms (evs : List GLEvent) : List GLuint := evs.filterMap GLEvent.linked?
/-- Handles passed to `glDeleteProgram`, in call order. -/
def deletedPrograms (evs : List GLEvent) : List GLuint :=
  evs.filterMap GLEvent.deletedProgram?
/-- The draw commands, in call order. -/
def drawCalls (evs : List GLEvent) : List GLEvent := evs.filter GLEvent.isDraw

/-! ## Stage lists -/

/-- The array holds an entry of kind `GL_NONE`. -/
def SentinelTerminated (shaders : List ShaderInfo) : Prop :=
  ∃ e ∈ shaders, e.type = GL_NONE

instance (shaders : List ShaderInfo) : Decidable (SentinelTerminated shaders) :=
  inferInstanceAs (Decidable (∃ e ∈ shaders, e.type = GL_NONE))

/-- The entries in front of the first `GL_NONE` entry. -/
def stages (shaders : List ShaderInfo) : List ShaderInfo :=
  shaders.takeWhile (fun e => decide (e.type ≠ GL_NONE))

/-- The entries from the first `GL_NONE` entry on. -/
def afterStages (shaders : List ShaderInfo) : List ShaderInfo :=
  shaders.dropWhile (fun e => decide (e.type ≠ GL_NONE))

/-- The call `ReadShader(e.filename)` delivers a source buffer. -/
def Loads (fs : FileSystem) (e : ShaderInfo) : Prop :=
  match ReadShader fs e.filename with
  | .ok (some _) => True
  | _ => False

instance (fs : FileSystem) (e : ShaderInfo) : Decidable (Loads fs e) :=
  match h : ReadShader fs e.filename with
  | .ok (some _) => isTrue (by simp [Loads, h])
  | .ok none => isFalse (by simp [Loads, h])
  | .error _ => isFalse (by simp [Loads, h])

/-! ## A recording test double -/

/-- A driver that returns `program` from `glCreateProgram`, hands out consecutive names
otherwise, answers every compile-status query from `compileStatus` and every link-status
query with `linkStatus`.  Its state is the last name handed out. -/
def mockDriver (program : GLuint) (compileStatus : GLuint → GLint) (linkStatus : GLint) :
    Driver Nat where
  glCreateProgram s := (program, s)
  glCreateShader _ s := (s + 1, s + 1)
  glShaderSource _ _ _ s := s
  glCompileShader _ s := s
  glGetShaderiv shader _ s := (compileStatus shader, s)
  glAttachShader _ _ s := s
  glLinkProgram _ s := s
  glGetProgramiv _ _ s := (linkStatus, s)
  glDeleteShader _ s := s
  glUseProgram _ s := s
  glGenVertexArrays n _ s := ((List.range n.toNat).map (fun i => s + 1 + i), s + n.toNat)
  glBindVertexArray _ s := s
  glGenBuffers n _ s := ((List.range n.toNat).map (fun i => s + 1 + i), s + n.toNat)
  glBindBuffer _ _ s := s
  glBufferData _ _ _ s := s
  glVertexAttribPointer _ _ _ _ _ _ s := s
  glEnableVertexAttribArray _ s := s
  glClear _ s := s
  glDrawArrays _ _ _ s := s
  glFinish s := s

/-- A file system holding exactly the given files. -/
def filesOf (files : List (String × List GLchar)) : FileSystem :=
  fun path => (files.find? (fun f => f.1 == path)).map Prod.snd

/-! ## Sample inputs -/

/-- A file system holding the two shader sources `init` asks for, and `ok.frag`. -/
def sampleFiles : FileSystem :=
  filesOf [("triangles.vert", [35, 118]), ("triangles.frag", [35, 102]), ("ok.frag", [35])]

/-- A stage list whose first source file does not exist. -/
def missingVertexShaders : List ShaderInfo :=
  [⟨GL_VERTEX_SHADER, some "missing.vert", 0⟩,
   ⟨GL_FRAGMENT_SHADER, some "ok.frag", 0⟩,
   ⟨GL_NONE, none, 0⟩]

/-- A stage list holding the sentinel entry only. -/
def sentinelOnly : List ShaderInfo := [⟨GL_NONE, none, 0⟩]

/-- The length `2 ^ 32` of a file of 4 GiB. -/
def hugeLength : Nat := 2 ^ 32

/-- A file system whose every path opens on a file of `2 ^ 32` zero bytes. -/
def hugeFiles : FileSystem := fun _ => some (List.replicate hugeLength 0)

/-- A stage list with one vertex stage. -/
def vertexOnly : List ShaderInfo :=
  [⟨GL_VERTEX_SHADER, some "triangles.vert", 0⟩, ⟨GL_NONE, none, 0⟩]

/-! ## Passes through the loop body

A run of the loop is a number of complete passes (create, load, compile, attach) followed
by one ending.  `StagePass` records what a complete pass saw. -/

/-- One complete pass through the body of the `while` loop. -/
structure StagePass where
  /-- The entry as found in the array. -/
  entry : ShaderInfo
  /-- The handle `glCreateShader` returned. -/
  shader : GLuint
  /-- The buffer `ReadShader` returned. -/
  source : List GLchar
  /-- The compile status the driver reported. -/
  compiled : GLint

/-- The entry as the pass leaves it in the array. -/
def StagePass.stored (sp : StagePass) : ShaderInfo := { sp.entry with shader := sp.shader }

/-- The driver calls of one complete pass. -/
def StagePass.events (program : GLuint) (sp : StagePass) : List GLEvent :=
  [GLEvent.glCreateShader sp.entry.type sp.shader,
    GLEvent.glShaderSource sp.shader 1 sp.source,
    GLEvent.glCompileShader sp.shader,
    GLEvent.glGetShaderiv sp.shader GL_COMPILE_STATUS sp.compiled,
    GLEvent.glAttachShader program sp.shader]

/-- The driver calls of consecutive complete passes. -/
def passEvents (program : GLuint) : List StagePass → List GLEvent
  | [] => []
  | sp :: sps => sp.events program ++ passEvents program sps

/-- The `glDeleteShader` calls of the clean-up loop over the given entries. -/
def deleteEvents (entries : List ShaderInfo) : List GLEvent :=
  entries.map (fun e => GLEvent.glDeleteShader e.shader)

/-- How the loop ends once the complete passes are over: `seen` are the entries in front
of the cursor, the next argument the entries from the cursor on, then the result, the
array left behind and the driver calls of the ending. -/
inductive Ending (fs : FileSystem) (program : GLuint) (seen : List ShaderInfo) :
    List ShaderInfo → Except Fault GLuint → List ShaderInfo → List GLEvent → Prop
  /-- The sentinel is met and the driver reports the program linked (line 120). -/
  | linked (e : ShaderInfo) (post : List ShaderInfo) (v : GLint) :
      e.type = GL_NONE → v ≠ 0 →
      Ending fs program seen (e :: post) (.ok program) (seen ++ e :: post)
        [GLEvent.glLinkProgram program, GLEvent.glGetProgramiv program GL_LINK_STATUS v]
  /-- The sentinel is met and the driver reports the link failed (lines 101-117). -/
  | linkFailed (e : ShaderInfo) (post : List ShaderInfo) :
      e.type = GL_NONE →
      Ending fs program seen (e :: post) (.ok 0) (seen.map resetShader ++ e :: post)
        ([GLEvent.glLinkProgram program, GLEvent.glGetProgramiv program GL_LINK_STATUS 0]
          ++ deleteEvents seen)
  /-- The driver reports that the stage did not compile (lines 87-90). -/
  | compileFailed (e : ShaderInfo) (post : List ShaderInfo) (h : GLuint)
      (source : List GLchar) :
      e.type ≠ GL_NONE → ReadShader fs e.filename = .ok (some source) →
      Ending fs program seen (e :: post) (.ok 0) (seen ++ { e with shader := h } :: post)
        [GLEvent.glCreateShader e.type h, GLEvent.glShaderSource h 1 source,
          GLEvent.glCompileShader h, GLEvent.glGetShaderiv h GL_COMPILE_STATUS 0]
  /-- The source of the stage cannot be opened (lines 71-78). -/
  | sourceMissing (e : ShaderInfo) (post : List ShaderInfo) (h : GLuint) :
      e.type ≠ GL_NONE → ReadShader fs e.filename = .ok none →
      Ending fs program seen (e :: post)
        (if SentinelTerminated post then .ok 0 else .error .noSentinel)
        ((seen ++ { e with shader := h } :: stages post).map resetShader ++ afterStages post)
        (GLEvent.glCreateShader e.type h ::
          deleteEvents (seen ++ { e with shader := h } :: stages post))
  /-- The call `ReadShader` faults. -/
  | readFault (e : ShaderInfo) (post : List ShaderInfo) (h : GLuint) (f : Fault) :
      e.type ≠ GL_NONE → ReadShader fs e.filename = .error f →
      Ending fs program seen (e :: post) (.error f) (seen ++ { e with shader := h } :: post)
        [GLEvent.glCreateShader e.type h]
  /-- The cursor runs past the end of the array. -/
  | noSentinel : Ending fs program seen [] (.error .noSentinel) seen []

/-! ## Lemmas on stage lists -/

theorem sentinelTerminated_cons (e : ShaderInfo) (l : List ShaderInfo) :
    SentinelTerminated (e :: l) ↔ e.type = GL_NONE ∨ SentinelTerminated l := by
  simp [SentinelTerminated]

theorem not_sentinelTerminated_nil : ¬ SentinelTerminated [] := by
  simp [SentinelTerminated]

theorem sentinelTerminated_append (pre l : List ShaderInfo)
    (hpre : ∀ e ∈ pre, e.type ≠ GL_NONE) :
    SentinelTerminated (pre ++ l) ↔ SentinelTerminated l := by
  induction pre with
  | nil => simp
  | cons a pre ih =>
    have ha : a.type ≠ GL_NONE := hpre a (by simp)
    have ih := ih (fun e he => hpre e (by simp [he]))
    simp only [List.cons_append, sentinelTerminated_cons, ih]
    constructor
    · rintro (h | h)
      · exact absurd h ha
      · exact h
    · exact Or.inr

theorem stages_nil : stages [] = [] := rfl

theorem afterStages_nil : afterStages [] = [] := rfl

theorem stages_cons_sentinel {e : ShaderInfo} (l : List ShaderInfo) (he : e.type = GL_NONE) :
    stages (e :: l) = [] := by
  simp [stages, List.takeWhile_cons, he]

theorem afterStages_cons_sentinel {e : ShaderInfo} (l : List ShaderInfo)
    (he : e.type = GL_NONE) : afterStages (e :: l) = e :: l := by
  simp [afterStages, List.dropWhile_cons, he]

theorem stages_cons_stage {e : ShaderInfo} (l : List ShaderInfo) (he : e.type ≠ GL_NONE) :
    stages (e :: l) = e :: stages l := by
  simp [stages, List.takeWhile_cons, he]

theorem afterStages_cons_stage {e : ShaderInfo} (l : List ShaderInfo)
    (he : e.type ≠ GL_NONE) : afterStages (e :: l) = afterStages l := by
  simp [afterStages, List.dropWhile_cons, he]

theorem stages_append (pre l : List ShaderInfo) (hpre : ∀ e ∈ pre, e.type ≠ GL_NONE) :
    stages (pre ++ l) = pre ++ stages l := by
  induction pre with
  | nil => simp
  | cons a pre ih =>
    have ha : a.type ≠ GL_NONE := hpre a (by simp)
    simp [stages_cons_stage _ ha, ih (fun e he => hpre e (by simp [he]))]

theorem afterStages_append (pre l : List ShaderInfo) (hpre : ∀ e ∈ pre, e.type ≠ GL_NONE) :
    afterStages (pre ++ l) = afterStages l := by
  induction pre with
  | nil => simp
  | cons a pre ih =>
    have ha : a.type ≠ GL_NONE := hpre a (by simp)
    simp [afterStages_cons_stage _ ha, ih (fun e he => hpre e (by simp [he]))]

theorem stages_append_afterStages (l : List ShaderInfo) : stages l ++ afterStages l = l := by
  simp [stages, afterStages]

theorem type_ne_of_mem_stages {l : List ShaderInfo} {e : ShaderInfo} (he : e ∈ stages l) :
    e.type ≠ GL_NONE := by
  have := List.mem_takeWhile_imp he
  simpa using this

/-! ## The clean-up loop -/

theorem deleteShaders_spec {σ : Type} (d : Driver σ) (arr : List ShaderInfo) (s : σ) :
    (deleteShaders d arr s).events = deleteEvents (stages arr) ∧
    (deleteShaders d arr s).shaders = (stages arr).map resetShader ++ afterStages arr ∧
    (deleteShaders d arr s).result =
      if SentinelTerminated arr then .ok () else .error .noSentinel := by
  induction arr generalizing s with
  | nil => simp [deleteShaders, stages_nil, afterStages_nil, deleteEvents,
      not_sentinelTerminated_nil]
  | cons e rest ih =>
    by_cases he : e.type = GL_NONE
    · simp [deleteShaders, he, stages_cons_sentinel, afterStages_cons_sentinel, deleteEvents,
        sentinelTerminated_cons]
    · obtain ⟨h1, h2, h3⟩ := ih (d.glDeleteShader e.shader s)
      simp [deleteShaders, he, stages_cons_stage, afterStages_cons_stage, deleteEvents,
        sentinelTerminated_cons, h2, h3]
      simpa [deleteEvents] using h1

theorem deleteAndFail_spec {σ : Type} (d : Driver σ) (arr : List ShaderInfo) (s : σ)
    (before : List GLEvent) :
    (deleteAndFail d arr s before).events = before ++ deleteEvents (stages arr) ∧
    (deleteAndFail d arr s before).shaders = (stages arr).map resetShader ++ afterStages arr ∧
    (deleteAndFail d arr s before).result =
      if SentinelTerminated arr then .ok 0 else .error .noSentinel := by
  obtain ⟨h1, h2, h3⟩ := deleteShaders_spec d arr s
  refine ⟨by simp [deleteAndFail, h1], by simp [deleteAndFail, h2], ?_⟩
  simp only [deleteAndFail, h3]
  by_cases hs : SentinelTerminated arr <;> simp [hs]

/-! ## The loop: complete passes, then one ending -/

theorem loadLoop_spec {σ : Type} (d : Driver σ) (fs : FileSystem) (program : GLuint)
    (rest : List ShaderInfo) :
    ∀ (done : List ShaderInfo) (s : σ), (∀ e ∈ done, e.type ≠ GL_NONE) →
    ∃ (sps : List StagePass) (post : List ShaderInfo) (tail : List GLEvent),
      rest = sps.map StagePass.entry ++ post ∧
      (∀ sp ∈ sps, sp.entry.type ≠ GL_NONE ∧
        ReadShader fs sp.entry.filename = .ok (some sp.source) ∧ sp.compiled ≠ 0) ∧
      (loadLoop d fs program done rest s).events = passEvents program sps ++ tail ∧
      Ending fs program (done ++ sps.map StagePass.stored) post
        (loadLoop d fs program done rest s).result
        (loadLoop d fs program done rest s).shaders tail := by
  induction rest with
  | nil =>
    intro done s _
    refine ⟨[], [], [], by simp, by simp, by simp [loadLoop, passEvents], ?_⟩
    simpa [loadLoop] using Ending.noSentinel
  | cons entry rest ih =>
    intro done s hdone
    by_cases he : entry.type = GL_NONE
    · refine ⟨[], entry :: rest, (loadLoop d fs program done (entry :: rest) s).events,
        by simp, by simp, by simp [passEvents], ?_⟩
      by_cases hl :
        (d.glGetProgramiv program GL_LINK_STATUS (d.glLinkProgram program s)).1 = 0
      · obtain ⟨h1, h2, h3⟩ := deleteAndFail_spec d (done ++ entry :: rest)
          (d.glGetProgramiv program GL_LINK_STATUS (d.glLinkProgram program s)).2
          [GLEvent.glLinkProgram program, GLEvent.glGetProgramiv program GL_LINK_STATUS
            (d.glGetProgramiv program GL_LINK_STATUS (d.glLinkProgram program s)).1]
        have hst : SentinelTerminated (done ++ entry :: rest) :=
          (sentinelTerminated_append _ _ hdone).2
            ((sentinelTerminated_cons _ _).2 (Or.inl he))
        rw [stages_append _ _ hdone, stages_cons_sentinel _ he, List.append_nil] at h1 h2
        rw [afterStages_append _ _ hdone, afterStages_cons_sentinel _ he] at h2
        rw [if_pos hst] at h3
        simp only [loadLoop, he, if_true, List.map_nil, List.append_nil]
        rw [if_pos hl, h1, h2, h3, hl]
        exact Ending.linkFailed entry rest he
      · simp only [loadLoop, he, hl, if_true, if_false, List.map_nil, List.append_nil]
        exact Ending.linked entry rest _ he hl
    · cases hr : ReadShader fs entry.filename with
      | error f =>
        refine ⟨[], entry :: rest, (loadLoop d fs program done (entry :: rest) s).events,
          by simp, by simp, by simp [passEvents], ?_⟩
        simp only [loadLoop, he, hr, if_false, List.map_nil, List.append_nil]
        exact Ending.readFault entry rest _ f he hr
      | ok res =>
        cases res with
        | none =>
          refine ⟨[], entry :: rest, (loadLoop d fs program done (entry :: rest) s).events,
            by simp, by simp, by simp [passEvents], ?_⟩
          obtain ⟨h1, h2, h3⟩ := deleteAndFail_spec d
            (done ++ { entry with shader := (d.glCreateShader entry.type s).1 } :: rest)
            (d.glCreateShader entry.type s).2
            [GLEvent.glCreateShader entry.type (d.glCreateShader entry.type s).1]
          have he1 : ({ entry with shader := (d.glCreateShader entry.type s).1 } :
              ShaderInfo).type ≠ GL_NONE := he
          rw [stages_append _ _ hdone, stages_cons_stage _ he1] at h1 h2
          rw [afterStages_append _ _ hdone, afterStages_cons_stage _ he1] at h2
          have hst : SentinelTerminated
              (done ++ { entry with shader := (d.glCreateShader entry.type s).1 } :: rest) ↔
              SentinelTerminated rest := by
            rw [sentinelTerminated_append _ _ hdone, sentinelTerminated_cons]
            constructor
            · rintro (h | h)
              · exact absurd h he1
              · exact h
            · exact Or.inr
          simp only [loadLoop, he, hr, if_false, List.map_nil, List.append_nil]
          rw [h1, h2, h3]
          have := @Ending.sourceMissing fs program done
            entry rest (d.glCreateShader entry.type s).1 he hr
          simpa [hst] using this
        | some source =>
          by_cases hc : (d.glGetShaderiv (d.glCreateShader entry.type s).1 GL_COMPILE_STATUS
              (d.glCompileShader (d.glCreateShader entry.type s).1
                (d.glShaderSource (d.glCreateShader entry.type s).1 1 source
                  (d.glCreateShader entry.type s).2))).1 = 0
          · refine ⟨[], entry :: rest, (loadLoop d fs program done (entry :: rest) s).events,
              by simp, by simp, by simp [passEvents], ?_⟩
            simp only [loadLoop, he, hr, hc, if_true, if_false, List.map_nil,
              List.append_nil]
            exact Ending.compileFailed entry rest _ source he hr
          · have he1 : ({ entry with shader := (d.glCreateShader entry.type s).1 } :
                ShaderInfo).type ≠ GL_NONE := he
            obtain ⟨sps, post, tail, hrest, hgood, hev, hend⟩ :=
              ih (done ++ [{ entry with shader := (d.glCreateShader entry.type s).1 }])
                (d.glAttachShader program (d.glCreateShader entry.type s).1
                  (d.glGetShaderiv (d.glCreateShader entry.type s).1 GL_COMPILE_STATUS
                    (d.glCompileShader (d.glCreateShader entry.type s).1
                      (d.glShaderSource (d.glCreateShader entry.type s).1 1 source
                        (d.glCreateShader entry.type s).2))).2)
                (by
                  intro e hmem
                  rcases List.mem_append.1 hmem with h | h
                  · exact hdone e h
                  · rw [List.mem_singleton] at h
                    rw [h]; exact he1)
            refine ⟨⟨entry, (d.glCreateShader entry.type s).1, source,
              (d.glGetShaderiv (d.glCreateShader entry.type s).1 GL_COMPILE_STATUS
                (d.glCompileShader (d.glCreateShader entry.type s).1
                  (d.glShaderSource (d.glCreateShader entry.type s).1 1 source
                    (d.glCreateShader entry.type s).2))).1⟩ :: sps, post, tail, ?_, ?_, ?_, ?_⟩
            · simp [hrest]
            · intro sp hsp
              rcases List.mem_cons.1 hsp with h | h
              · subst h
                exact ⟨he, hr, hc⟩
              · exact hgood sp h
            · simp only [loadLoop, he, hr, hc, if_false, hev, passEvents, StagePass.events,
                List.append_assoc]
            · simp only [loadLoop, he, hr, hc, if_false]
              simpa [StagePass.stored, List.append_assoc] using hend

/-- A run of `LoadShaders` on an array: `glCreateProgram`, complete passes, one ending. -/
theorem LoadShaders_spec {σ : Type} (d : Driver σ) (fs : FileSystem)
    (shaders : List ShaderInfo) (s : σ) :
    ∃ (sps : List StagePass) (post : List ShaderInfo) (tail : List GLEvent),
      shaders = sps.map StagePass.entry ++ post ∧
      (∀ sp ∈ sps, sp.entry.type ≠ GL_NONE ∧
        ReadShader fs sp.entry.filename = .ok (some sp.source) ∧ sp.compiled ≠ 0) ∧
      (LoadShaders d fs (some shaders) s).events =
        GLEvent.glCreateProgram (d.glCreateProgram s).1 ::
          (passEvents (d.glCreateProgram s).1 sps ++ tail) ∧
      Ending fs (d.glCreateProgram s).1 (sps.map StagePass.stored) post
        (LoadShaders d fs (some shaders) s).result
        (LoadShaders d fs (some shaders) s).shaders tail := by
  obtain ⟨sps, post, tail, h1, h2, h3, h4⟩ :=
    loadLoop_spec d fs (d.glCreateProgram s).1 shaders [] (d.glCreateProgram s).2 (by simp)
  refine ⟨sps, post, tail, h1, h2, ?_, ?_⟩
  · simp only [LoadShaders, h3]
  · simpa [LoadShaders] using h4

/-! ## Lemmas on records of calls -/

theorem loads_iff (fs : FileSystem) (e : ShaderInfo) :
    Loads fs e ↔ ∃ source, ReadShader fs e.filename = .ok (some source) := by
  unfold Loads
  split
  · next src h => simp [h]
  · next h =>
    simp only [false_iff, not_exists]
    intro src hsrc
    exact h src hsrc

theorem link_status_ne_compile_status : GL_LINK_STATUS ≠ GL_COMPILE_STATUS := by decide

theorem compile_status_ne_link_status : GL_COMPILE_STATUS ≠ GL_LINK_STATUS := by decide

@[simp] theorem createdShaders_nil : createdShaders [] = [] := rfl

@[simp] theorem createdShaders_cons (e : GLEvent) (l : List GLEvent) :
    createdShaders (e :: l) = (GLEvent.created? e).toList ++ createdShaders l := by
  cases h : GLEvent.created? e <;> simp [createdShaders, List.filterMap_cons, h]

@[simp] theorem createdShaders_append (a b : List GLEvent) :
    createdShaders (a ++ b) = createdShaders a ++ createdShaders b := by
  simp [createdShaders]

@[simp] theorem createdTypes_nil : createdTypes [] = [] := rfl

@[simp] theorem createdTypes_cons (e : GLEvent) (l : List GLEvent) :
    createdTypes (e :: l) = (GLEvent.createdType? e).toList ++ createdTypes l := by
  cases h : GLEvent.createdType? e <;> simp [createdTypes, List.filterMap_cons, h]

@[simp] theorem createdTypes_append (a b : List GLEvent) :
    createdTypes (a ++ b) = createdTypes a ++ createdTypes b := by
  simp [createdTypes]

@[simp] theorem deletedShaders_nil : deletedShaders [] = [] := rfl

@[simp] theorem deletedShaders_cons (e : GLEvent) (l : List GLEvent) :
    deletedShaders (e :: l) = (GLEvent.deleted? e).toList ++ deletedShaders l := by
  cases h : GLEvent.deleted? e <;> simp [deletedShaders, List.filterMap_cons, h]

@[simp] theorem deletedShaders_append (a b : List GLEvent) :
    deletedShaders (a ++ b) = deletedShaders a ++ deletedShaders b := by
  simp [deletedShaders]

@[simp] theorem attachedShaders_nil : attachedShaders [] = [] := rfl

@[simp] theorem attachedShaders_cons (e : GLEvent) (l : List GLEvent) :
    attachedShaders (e :: l) = (GLEvent.attached? e).toList ++ attachedShaders l := by
  cases h : GLEvent.attached? e <;> simp [attachedShaders, List.filterMap_cons, h]

@[simp] theorem attachedShaders_append (a b : List GLEvent) :
    attachedShaders (a ++ b) = attachedShaders a ++ attachedShaders b := by
  simp [attachedShaders]

@[simp] theorem compileReplies_nil : compileReplies [] = [] := rfl

@[simp] theorem compileReplies_cons (e : GLEvent) (l : List GLEvent) :
    compileReplies (e :: l) = (GLEvent.compileStatus? e).toList ++ compileReplies l := by
  cases h : GLEvent.compileStatus? e <;> simp [compileReplies, List.filterMap_cons, h]

@[simp] theorem compileReplies_append (a b : List GLEvent) :
    compileReplies (a ++ b) = compileReplies a ++ compileReplies b := by
  simp [compileReplies]

@[simp] theorem linkReplies_nil : linkReplies [] = [] := rfl

@[simp] theorem linkReplies_cons (e : GLEvent) (l : List GLEvent) :
    linkReplies (e :: l) = (GLEvent.linkStatus? e).toList ++ linkReplies l := by
  cases h : GLEvent.linkStatus? e <;> simp [linkReplies, List.filterMap_cons, h]

@[simp] theorem linkReplies_append (a b : List GLEvent) :
    linkReplies (a ++ b) = linkReplies a ++ linkReplies b := by
  simp [linkReplies]

@[simp] theorem createdPrograms_nil : createdPrograms [] = [] := rfl

@[simp] theorem createdPrograms_cons (e : GLEvent) (l : List GLEvent) :
    createdPrograms (e :: l) = (GLEvent.createdProgram? e).toList ++ createdPrograms l := by
  cases h : GLEvent.createdProgram? e <;> simp [createdPrograms, List.filterMap_cons, h]

@[simp] theorem createdPrograms_append (a b : List GLEvent) :
    createdPrograms (a ++ b) = createdPrograms a ++ createdPrograms b := by
  simp [createdPrograms]

@[simp] theorem usedPrograms_nil : usedPrograms [] = [] := rfl

@[simp] theorem usedPrograms_cons (e : GLEvent) (l : List GLEvent) :
    usedPrograms (e :: l) = (GLEvent.used? e).toList ++ usedPrograms l := by
  cases h : GLEvent.used? e <;> simp [usedPrograms, List.filterMap_cons, h]

@[simp] theorem usedPrograms_append (a b : List GLEvent) :
    usedPrograms (a ++ b) = usedPrograms a ++ usedPrograms b := by
  simp [usedPrograms]

@[simp] theorem linkedPrograms_nil : linkedPrograms [] = [] := rfl

@[simp] theorem linkedPrograms_cons (e : GLEvent) (l : List GLEvent) :
    linkedPrograms (e :: l) = (GLEvent.linked? e).toList ++ linkedPrograms l := by
  cases h : GLEvent.linked? e <;> simp [linkedPrograms, List.filterMap_cons, h]

@[simp] theorem linkedPrograms_append (a b : List GLEvent) :
    linkedPrograms (a ++ b) = linkedPrograms a ++ linkedPrograms b := by
  simp [linkedPrograms]

@[simp] theorem deletedPrograms_nil : deletedPrograms [] = [] := rfl

@[simp] theorem deletedPrograms_cons (e : GLEvent) (l : List GLEvent) :
    deletedPrograms (e :: l) = (GLEvent.deletedProgram? e).toList ++ deletedPrograms l := by
  cases h : GLEvent.deletedProgram? e <;> simp [deletedPrograms, List.filterMap_cons, h]

@[simp] theorem deletedPrograms_append (a b : List GLEvent) :
    deletedPrograms (a ++ b) = deletedPrograms a ++ deletedPrograms b := by
  simp [deletedPrograms]

@[simp] theorem createdShaders_passEvents (p : GLuint) (sps : List StagePass) :
    createdShaders (passEvents p sps) = sps.map StagePass.shader := by
  induction sps with
  | nil => rfl
  | cons sp sps ih =>
    simp [passEvents, StagePass.events, ih, GLEvent.created?]

@[simp] theorem createdShaders_deleteEvents (l : List ShaderInfo) :
    createdShaders (deleteEvents l) = [] := by
  induction l with
  | nil => rfl
  | cons e l ih =>
    have ih2 := ih
    simp only [deleteEvents] at ih2
    simp [deleteEvents, GLEvent.created?, ih2]

@[simp] theorem createdTypes_passEvents (p : GLuint) (sps : List StagePass) :
    createdTypes (passEvents p sps) = sps.map (fun sp => sp.entry.type) := by
  induction sps with
  | nil => rfl
  | cons sp sps ih =>
    simp [passEvents, StagePass.events, ih, GLEvent.createdType?]

@[simp] theorem createdTypes_deleteEvents (l : List ShaderInfo) :
    createdTypes (deleteEvents l) = [] := by
  induction l with
  | nil => rfl
  | cons e l ih =>
    have ih2 := ih
    simp only [deleteEvents] at ih2
    simp [deleteEvents, GLEvent.createdType?, ih2]

@[simp] theorem deletedShaders_passEvents (p : GLuint) (sps : List StagePass) :
    deletedShaders (passEvents p sps) = [] := by
  induction sps with
  | nil => rfl
  | cons sp sps ih =>
    simp [passEvents, StagePass.events, ih, GLEvent.deleted?]

@[simp] theorem deletedShaders_deleteEvents (l : List ShaderInfo) :
    deletedShaders (deleteEvents l) = l.map ShaderInfo.shader := by
  induction l with
  | nil => rfl
  | cons e l ih =>
    have ih2 := ih
    simp only [deleteEvents] at ih2
    simp [deleteEvents, GLEvent.deleted?, ih2]

@[simp] theorem attachedShaders_passEvents (p : GLuint) (sps : List StagePass) :
    attachedShaders (passEvents p sps) = sps.map (fun sp => (p, sp.shader)) := by
  induction sps with
  | nil => rfl
  | cons sp sps ih =>
    simp [passEvents, StagePass.events, ih, GLEvent.attached?]

@[simp] theorem attachedShaders_deleteEvents (l : List ShaderInfo) :
    attachedShaders (deleteEvents l) = [] := by
  induction l with
  | nil => rfl
  | cons e l ih =>
    have ih2 := ih
    simp only [deleteEvents] at ih2
    simp [deleteEvents, GLEvent.attached?, ih2]

@[simp] theorem compileReplies_passEvents (p : GLuint) (sps : List StagePass) :
    compileReplies (passEvents p sps) = sps.map StagePass.compiled := by
  induction sps with
  | nil => rfl
  | cons sp sps ih =>
    simp [passEvents, StagePass.events, ih, GLEvent.compileStatus?]

@[simp] theorem compileReplies_deleteEvents (l : List ShaderInfo) :
    compileReplies (deleteEvents l) = [] := by
  induction l with
  | nil => rfl
  | cons e l ih =>
    have ih2 := ih
    simp only [deleteEvents] at ih2
    simp [deleteEvents, GLEvent.compileStatus?, ih2]

@[simp] theorem linkReplies_passEvents (p : GLuint) (sps : List StagePass) :
    linkReplies (passEvents p sps) = [] := by
  induction sps with
  | nil => rfl
  | cons sp sps ih =>
    simp [passEvents, StagePass.events, ih, GLEvent.linkStatus?]

@[simp] theorem linkReplies_deleteEvents (l : List ShaderInfo) :
    linkReplies (deleteEvents l) = [] := by
  induction l with
  | nil => rfl
  | cons e l ih =>
    have ih2 := ih
    simp only [deleteEvents] at ih2
    simp [deleteEvents, GLEvent.linkStatus?, ih2]

@[simp] theorem createdPrograms_passEvents (p : GLuint) (sps : List StagePass) :
    createdPrograms (passEvents p sps) = [] := by
  induction sps with
  | nil => rfl
  | cons sp sps ih =>
    simp [passEvents, StagePass.events, ih, GLEvent.createdProgram?]

@[simp] theorem createdPrograms_deleteEvents (l : List ShaderInfo) :
    createdPrograms (deleteEvents l) = [] := by
  induction l with
  | nil => rfl
  | cons e l ih =>
    have ih2 := ih
    simp only [deleteEvents] at ih2
    simp [deleteEvents, GLEvent.createdProgram?, ih2]

@[simp] theorem usedPrograms_passEvents (p : GLuint) (sps : List StagePass) :
    usedPrograms (passEvents p sps) = [] := by
  induction sps with
  | nil => rfl
  | cons sp sps ih =>
    simp [passEvents, StagePass.events, ih, GLEvent.used?]

@[simp] theorem usedPrograms_deleteEvents (l : List ShaderInfo) :
    usedPrograms (deleteEvents l) = [] := by
  induction l with
  | nil => rfl
  | cons e l ih =>
    have ih2 := ih
    simp only [deleteEvents] at ih2
    simp [deleteEvents, GLEvent.used?, ih2]

@[simp] theorem linkedPrograms_passEvents (p : GLuint) (sps : List StagePass) :
    linkedPrograms (passEvents p sps) = [] := by
  induction sps with
  | nil => rfl
  | cons sp sps ih =>
    simp [passEvents, StagePass.events, ih, GLEvent.linked?]

@[simp] theorem linkedPrograms_deleteEvents (l : List ShaderInfo) :
    linkedPrograms (deleteEvents l) = [] := by
  induction l with
  | nil => rfl
  | cons e l ih =>
    have ih2 := ih
    simp only [deleteEvents] at ih2
    simp [deleteEvents, GLEvent.linked?, ih2]

@[simp] theorem deletedPrograms_passEvents (p : GLuint) (sps : List StagePass) :
    deletedPrograms (passEvents p sps) = [] := by
  induction sps with
  | nil => rfl
  | cons sp sps ih =>
    simp [passEvents, StagePass.events, ih, GLEvent.deletedProgram?]

@[simp] theorem deletedPrograms_deleteEvents (l : List ShaderInfo) :
    deletedPrograms (deleteEvents l) = [] := by
  induction l with
  | nil => rfl
  | cons e l ih =>
    have ih2 := ih
    simp only [deleteEvents] at ih2
    simp [deleteEvents, GLEvent.deletedProgram?, ih2]

@[simp] theorem stored_shader (sp : StagePass) : sp.stored.shader = sp.shader := rfl

@[simp] theorem stored_type (sp : StagePass) : sp.stored.type = sp.entry.type := rfl

@[simp] theorem resetShader_shader (e : ShaderInfo) : (resetShader e).shader = 0 := rfl

@[simp] theorem resetShader_type (e : ShaderInfo) : (resetShader e).type = e.type := rfl

@[simp] theorem resetShader_stored (sp : StagePass) :
    resetShader sp.stored = resetShader sp.entry := rfl

theorem map_shader_stored (sps : List StagePass) :
    (sps.map StagePass.stored).map ShaderInfo.shader = sps.map StagePass.shader := by
  simp

theorem map_reset_stored (sps : List StagePass) :
    (sps.map StagePass.stored).map resetShader = (sps.map StagePass.entry).map resetShader := by
  simp

theorem deleteEvents_eq (l : List ShaderInfo) :
    deleteEvents l = (l.map ShaderInfo.shader).map GLEvent.glDeleteShader := by
  simp [deleteEvents]

theorem shader_eq_zero_of_mem_stages_reset (l post : List ShaderInfo) :
    ∀ e ∈ stages (l.map resetShader ++ post), e ∈ l.map resetShader ∨ e ∈ stages post := by
  induction l with
  | nil => intro e he; exact Or.inr (by simpa using he)
  | cons a l ih =>
    intro e he
    by_cases ha : a.type = GL_NONE
    · have : (resetShader a).type = GL_NONE := ha
      rw [List.map_cons, List.cons_append, stages_cons_sentinel _ this] at he
      simp at he
    · have : (resetShader a).type ≠ GL_NONE := ha
      rw [List.map_cons, List.cons_append, stages_cons_stage _ this] at he
      rcases List.mem_cons.1 he with h | h
      · exact Or.inl (by simp [h])
      · rcases ih e h with h2 | h2
        · exact Or.inl (by simp only [List.map_cons, List.mem_cons]; exact Or.inr h2)
        · exact Or.inr h2

/-- A run of `LoadShaders` on an array, with the result and the array named. -/
theorem LoadShaders_run {σ : Type} (d : Driver σ) (fs : FileSystem)
    (shaders : List ShaderInfo) (s : σ) :
    ∃ (sps : List StagePass) (post : List ShaderInfo) (tail : List GLEvent)
      (res : Except Fault GLuint) (arr : List ShaderInfo),
      shaders = sps.map StagePass.entry ++ post ∧
      (∀ sp ∈ sps, sp.entry.type ≠ GL_NONE ∧
        ReadShader fs sp.entry.filename = .ok (some sp.source) ∧ sp.compiled ≠ 0) ∧
      (LoadShaders d fs (some shaders) s).events =
        [GLEvent.glCreateProgram (d.glCreateProgram s).1] ++
          passEvents (d.glCreateProgram s).1 sps ++ tail ∧
      (LoadShaders d fs (some shaders) s).result = res ∧
      (LoadShaders d fs (some shaders) s).shaders = arr ∧
      Ending fs (d.glCreateProgram s).1 (sps.map StagePass.stored) post res arr tail := by
  obtain ⟨sps, post, tail, h1, h2, h3, h4⟩ := LoadShaders_spec d fs shaders s
  exact ⟨sps, post, tail, _, _, h1, h2, by simp [h3], rfl, rfl, h4⟩

theorem entries_ne_none {fs : FileSystem} {sps : List StagePass}
    (hgood : ∀ sp ∈ sps, sp.entry.type ≠ GL_NONE ∧
      ReadShader fs sp.entry.filename = .ok (some sp.source) ∧ sp.compiled ≠ 0) :
    ∀ e ∈ sps.map StagePass.entry, e.type ≠ GL_NONE := by
  intro e he
  obtain ⟨sp, hsp, rfl⟩ := List.mem_map.1 he
  exact (hgood sp hsp).1

theorem compiled_ne_zero {fs : FileSystem} {sps : List StagePass}
    (hgood : ∀ sp ∈ sps, sp.entry.type ≠ GL_NONE ∧
      ReadShader fs sp.entry.filename = .ok (some sp.source) ∧ sp.compiled ≠ 0) :
    (0 : GLint) ∉ sps.map StagePass.compiled := by
  intro h
  obtain ⟨sp, hsp, h0⟩ := List.mem_map.1 h
  exact (hgood sp hsp).2.2 h0

theorem not_sentinelTerminated_of_all {l : List ShaderInfo}
    (hl : ∀ e ∈ l, e.type ≠ GL_NONE) : ¬ SentinelTerminated l := by
  rintro ⟨e, he, h0⟩
  exact hl e he h0

theorem mem_stages_of_split {pre post : List ShaderInfo} {e : ShaderInfo}
    (hpre : ∀ x ∈ pre, x.type ≠ GL_NONE) (he : e.type ≠ GL_NONE) :
    e ∈ stages (pre ++ e :: post) := by
  rw [stages_append _ _ hpre, stages_cons_stage _ he]
  simp

theorem not_loads_of_null {fs : FileSystem} {e : ShaderInfo}
    (h : ReadShader fs e.filename = .ok none) : ¬ Loads fs e := by
  simp [Loads, h]

theorem not_loads_of_fault {fs : FileSystem} {e : ShaderInfo} {f : Fault}
    (h : ReadShader fs e.filename = .error f) : ¬ Loads fs e := by
  simp [Loads, h]

theorem loads_of_source {fs : FileSystem} {e : ShaderInfo} {source : List GLchar}
    (h : ReadShader fs e.filename = .ok (some source)) : Loads fs e := by
  simp [Loads, h]

theorem index_of_zero_reply (l : List GLint) (hl : (0 : GLint) ∉ l) (k : Nat)
    (h : (l ++ [0])[k]? = some 0) : k = l.length := by
  rcases Nat.lt_trichotomy k l.length with hk | hk | hk
  · rw [List.getElem?_append_left hk] at h
    exact absurd (List.getElem?_mem h) hl
  · exact hk
  · rw [List.getElem?_eq_none (by simp; omega)] at h
    cases h

/-! ## Link failure -/

/-- C3. For every sentinel-terminated stage list whose sources all load and whose stages
the driver reports as compiled, if the driver reports that linking failed, `LoadShaders`
returns 0, the `glDeleteShader` calls it made are exactly the handles `glCreateShader`
returned, made in the same order after every other call, and every entry in front of the
sentinel has its recorded handle reset to 0. -/
theorem LoadShaders_link_failed {σ : Type} (d : Driver σ) (fs : FileSystem)
    (shaders : List ShaderInfo) (s : σ)
    (hsent : SentinelTerminated shaders)
    (hload : ∀ e ∈ stages shaders, Loads fs e)
    (hcompiled : (0 : GLint) ∉ compileReplies (LoadShaders d fs (some shaders) s).events)
    (hlink : (0 : GLint) ∈ linkReplies (LoadShaders d fs (some shaders) s).events) :
    (LoadShaders d fs (some shaders) s).result = .ok 0 ∧
    deletedShaders (LoadShaders d fs (some shaders) s).events =
      createdShaders (LoadShaders d fs (some shaders) s).events ∧
    (∀ h ∈ createdShaders (LoadShaders d fs (some shaders) s).events,
      h ∈ deletedShaders (LoadShaders d fs (some shaders) s).events) ∧
    (∃ before, deletedShaders before = [] ∧
      (LoadShaders d fs (some shaders) s).events =
        before ++ (createdShaders before).map GLEvent.glDeleteShader) ∧
    (LoadShaders d fs (some shaders) s).shaders =
      (stages shaders).map resetShader ++ afterStages shaders ∧
    (∀ e ∈ stages (LoadShaders d fs (some shaders) s).shaders, e.shader = 0) := by
  obtain ⟨sps, post, tail, res, arr, hsh, hgood, hev, hres, harr, hend⟩ :=
    LoadShaders_run d fs shaders s
  have hne := entries_ne_none hgood
  rw [hev] at hlink
  cases hend with
  | linked e post v he hv =>
    simp [GLEvent.linkStatus?] at hlink
    exact absurd hlink.symm hv
  | linkFailed e post he =>
    have hcr : createdShaders (LoadShaders d fs (some shaders) s).events =
        sps.map StagePass.shader := by
      rw [hev]; simp [GLEvent.created?]
    have hdl : deletedShaders (LoadShaders d fs (some shaders) s).events =
        sps.map StagePass.shader := by
      rw [hev]; simp [GLEvent.deleted?]
    have hst : stages shaders = sps.map StagePass.entry := by
      rw [hsh, stages_append _ _ hne, stages_cons_sentinel _ he, List.append_nil]
    have haf : afterStages shaders = e :: post := by
      rw [hsh, afterStages_append _ _ hne, afterStages_cons_sentinel _ he]
    have hshaders : (LoadShaders d fs (some shaders) s).shaders =
        (stages shaders).map resetShader ++ afterStages shaders := by
      rw [harr, hst, haf, map_reset_stored]
    refine ⟨hres, by rw [hcr, hdl], by rw [hcr, hdl]; exact fun h hh => hh, ?_, hshaders, ?_⟩
    · refine ⟨[GLEvent.glCreateProgram (d.glCreateProgram s).1] ++
          passEvents (d.glCreateProgram s).1 sps ++
          [GLEvent.glLinkProgram (d.glCreateProgram s).1,
            GLEvent.glGetProgramiv (d.glCreateProgram s).1 GL_LINK_STATUS 0], ?_, ?_⟩
      · simp [GLEvent.deleted?]
      · rw [hev]
        simp [GLEvent.created?, deleteEvents_eq]
    · rw [hshaders, haf]
      intro x hx
      rcases shader_eq_zero_of_mem_stages_reset _ _ x hx with h | h
      · obtain ⟨y, _, rfl⟩ := List.mem_map.1 h
        rfl
      · rw [stages_cons_sentinel _ he] at h
        simp at h
  | compileFailed e post h source he hr =>
    refine absurd ?_ hcompiled
    rw [hev]; simp [GLEvent.compileStatus?]
  | sourceMissing e post h he hr =>
    exact absurd (hload e (hsh ▸ mem_stages_of_split hne he)) (not_loads_of_null hr)
  | readFault e post h f he hr =>
    exact absurd (hload e (hsh ▸ mem_stages_of_split hne he)) (not_loads_of_fault hr)
  | noSentinel =>
    rw [hsh, List.append_nil] at hsent
    exact absurd hsent (not_sentinelTerminated_of_all hne)

theorem LoadShaders_link_failed_witness :
    SentinelTerminated initShaders ∧
    (∀ e ∈ stages initShaders, Loads sampleFiles e) ∧
    (0 : GLint) ∈
      linkReplies (LoadShaders (mockDriver 7 (fun _ => 1) 0) sampleFiles
        (some initShaders) 0).events ∧
    (LoadShaders (mockDriver 7 (fun _ => 1) 0) sampleFiles (some initShaders) 0).result
      = .ok 0 ∧
    deletedShaders
      (LoadShaders (mockDriver 7 (fun _ => 1) 0) sampleFiles (some initShaders) 0).events =
    createdShaders
      (LoadShaders (mockDriver 7 (fun _ => 1) 0) sampleFiles (some initShaders) 0).events ∧
    createdShaders
      (LoadShaders (mockDriver 7 (fun _ => 1) 0) sampleFiles (some initShaders) 0).events =
      [1, 2] :=
  have h := LoadShaders_link_failed (mockDriver 7 (fun _ => 1) 0) sampleFiles initShaders 0
    (by decide) (by decide) (by decide) (by decide)
  ⟨by decide, by decide, by decide, h.1, h.2.1, by decide⟩

/-! ## Compile failure -/

/-- C9. For every sentinel-terminated stage list, if the compile-status query for the
stage at position `k` is answered 0 (compilation failed), then no earlier query was
answered 0, `LoadShaders` returns 0, and that query is its last driver call: the stages at
positions `0..k` and no others were created, the `k` earlier stages and not the failed one
were attached, no `glDeleteShader` call and no `glLinkProgram` call or link-status query
was made. -/
theorem LoadShaders_compile_failed {σ : Type} (d : Driver σ) (fs : FileSystem)
    (shaders : List ShaderInfo) (s : σ) (k : Nat)
    (hsent : SentinelTerminated shaders)
    (hfail : (compileReplies (LoadShaders d fs (some shaders) s).events)[k]? = some 0) :
    (LoadShaders d fs (some shaders) s).result = .ok 0 ∧
    (∀ i, i < k → (compileReplies (LoadShaders d fs (some shaders) s).events)[i]? ≠ some 0) ∧
    (∃ h, (LoadShaders d fs (some shaders) s).events.getLast? =
        some (GLEvent.glGetShaderiv h GL_COMPILE_STATUS 0) ∧
      (createdShaders (LoadShaders d fs (some shaders) s).events).getLast? = some h) ∧
    createdTypes (LoadShaders d fs (some shaders) s).events =
      ((stages shaders).take (k + 1)).map ShaderInfo.type ∧
    (createdShaders (LoadShaders d fs (some shaders) s).events).length = k + 1 ∧
    attachedShaders (LoadShaders d fs (some shaders) s).events =
      ((createdShaders (LoadShaders d fs (some shaders) s).events).take k).map
        (fun h => ((d.glCreateProgram s).1, h)) ∧
    deletedShaders (LoadShaders d fs (some shaders) s).events = [] ∧
    linkedPrograms (LoadShaders d fs (some shaders) s).events = [] ∧
    linkReplies (LoadShaders d fs (some shaders) s).events = [] := by
  obtain ⟨sps, post, tail, res, arr, hsh, hgood, hev, hres, harr, hend⟩ :=
    LoadShaders_run d fs shaders s
  have hne := entries_ne_none hgood
  have hc0 := compiled_ne_zero hgood
  rw [hev] at hfail
  cases hend with
  | linked e post v he hv =>
    simp [GLEvent.compileStatus?] at hfail
    obtain ⟨a, ha, h0⟩ := hfail
    exact absurd h0 (hgood a (List.getElem?_mem ha)).2.2
  | linkFailed e post he =>
    simp [GLEvent.compileStatus?] at hfail
    obtain ⟨a, ha, h0⟩ := hfail
    exact absurd h0 (hgood a (List.getElem?_mem ha)).2.2
  | compileFailed e post h source he hr =>
    have hrep : compileReplies (LoadShaders d fs (some shaders) s).events =
        sps.map StagePass.compiled ++ [0] := by
      rw [hev]; simp [GLEvent.compileStatus?]
    have hrep2 : (sps.map StagePass.compiled ++ [0])[k]? = some 0 := by
      simpa [GLEvent.compileStatus?] using hfail
    have hk : k = sps.length := by
      simpa using index_of_zero_reply _ hc0 k hrep2
    have hcr : createdShaders (LoadShaders d fs (some shaders) s).events =
        sps.map StagePass.shader ++ [h] := by
      rw [hev]; simp [GLEvent.created?]
    refine ⟨hres, ?_, ⟨h, ?_, ?_⟩, ?_, ?_, ?_, ?_, ?_, ?_⟩
    · intro i hi hcontra
      rw [hrep, List.getElem?_append_left (by simp; omega)] at hcontra
      exact absurd (List.getElem?_mem hcontra) hc0
    · have hlast : (LoadShaders d fs (some shaders) s).events =
          ([GLEvent.glCreateProgram (d.glCreateProgram s).1] ++
            passEvents (d.glCreateProgram s).1 sps ++
            [GLEvent.glCreateShader e.type h, GLEvent.glShaderSource h 1 source,
              GLEvent.glCompileShader h]) ++
            [GLEvent.glGetShaderiv h GL_COMPILE_STATUS 0] := by
        rw [hev]; simp
      rw [hlast, List.getLast?_concat]
    · rw [hcr, List.getLast?_concat]
    · have hsplit : sps.map StagePass.entry ++ e :: stages post =
          (sps.map StagePass.entry ++ [e]) ++ stages post := by simp
      rw [hev, hsh, stages_append _ _ hne, stages_cons_stage _ he, hk, hsplit,
        List.take_left' (by simp)]
      simp [GLEvent.createdType?]
    · rw [hcr, hk]; simp
    · rw [hcr, hev, hk, List.take_left' (by simp)]
      simp [GLEvent.attached?]
    · rw [hev]; simp [GLEvent.deleted?]
    · rw [hev]; simp [GLEvent.linked?]
    · rw [hev]; simp [GLEvent.linkStatus?]
  | sourceMissing e post h he hr =>
    simp [GLEvent.compileStatus?] at hfail
    obtain ⟨a, ha, h0⟩ := hfail
    exact absurd h0 (hgood a (List.getElem?_mem ha)).2.2
  | readFault e post h f he hr =>
    simp [GLEvent.compileStatus?] at hfail
    obtain ⟨a, ha, h0⟩ := hfail
    exact absurd h0 (hgood a (List.getElem?_mem ha)).2.2
  | noSentinel =>
    rw [hsh, List.append_nil] at hsent
    exact absurd hsent (not_sentinelTerminated_of_all hne)

theorem LoadShaders_compile_failed_witness :
    SentinelTerminated initShaders ∧
    (compileReplies (LoadShaders (mockDriver 7 (fun h => if h = 2 then 0 else 1) 1)
      sampleFiles (some initShaders) 0).events)[1]? = some 0 ∧
    (LoadShaders (mockDriver 7 (fun h => if h = 2 then 0 else 1) 1) sampleFiles
      (some initShaders) 0).result = .ok 0 ∧
    deletedShaders (LoadShaders (mockDriver 7 (fun h => if h = 2 then 0 else 1) 1)
      sampleFiles (some initShaders) 0).events = [] ∧
    createdShaders (LoadShaders (mockDriver 7 (fun h => if h = 2 then 0 else 1) 1)
      sampleFiles (some initShaders) 0).events = [1, 2] :=
  have h := LoadShaders_compile_failed (mockDriver 7 (fun h => if h = 2 then 0 else 1) 1)
    sampleFiles initShaders 0 1 (by decide) (by decide)
  ⟨by decide, by decide, h.1, h.2.2.2.2.2.2.1, by decide⟩

/-! ## Success -/

/-- C10. For every sentinel-terminated stage list on which `LoadShaders` succeeds (returns a
non-null handle `p`): one `glCreateShader` call is made per entry in front of the first
sentinel, in list order and with that entry's kind; every handle so obtained is recorded
in its entry and attached to `p` once, in the same order; the calls are `glCreateProgram`,
then the per-stage calls with no `glLinkProgram` among them, then `glLinkProgram` and the
link-status query as the last two calls; the entries from the sentinel on are left as they
were; and no `glDeleteShader` call is made. -/
theorem LoadShaders_success_order {σ : Type} (d : Driver σ) (fs : FileSystem)
    (shaders : List ShaderInfo) (s : σ) (p : GLuint)
    (hsent : SentinelTerminated shaders)
    (hok : (LoadShaders d fs (some shaders) s).result = .ok p) (hp : p ≠ 0) :
    createdTypes (LoadShaders d fs (some shaders) s).events =
      (stages shaders).map ShaderInfo.type ∧
    attachedShaders (LoadShaders d fs (some shaders) s).events =
      (createdShaders (LoadShaders d fs (some shaders) s).events).map (fun h => (p, h)) ∧
    (stages (LoadShaders d fs (some shaders) s).shaders).map ShaderInfo.shader =
      createdShaders (LoadShaders d fs (some shaders) s).events ∧
    afterStages (LoadShaders d fs (some shaders) s).shaders = afterStages shaders ∧
    deletedShaders (LoadShaders d fs (some shaders) s).events = [] ∧
    (∃ body v, v ≠ 0 ∧
      (LoadShaders d fs (some shaders) s).events =
        [GLEvent.glCreateProgram p] ++ body ++
          [GLEvent.glLinkProgram p, GLEvent.glGetProgramiv p GL_LINK_STATUS v] ∧
      linkedPrograms body = [] ∧
      attachedShaders body = attachedShaders (LoadShaders d fs (some shaders) s).events ∧
      createdShaders body = createdShaders (LoadShaders d fs (some shaders) s).events) := by
  obtain ⟨sps, post, tail, res, arr, hsh, hgood, hev, hres, harr, hend⟩ :=
    LoadShaders_run d fs shaders s
  have hne := entries_ne_none hgood
  rw [hok] at hres
  cases hend with
  | linked e post v he hv =>
    have hpp : p = (d.glCreateProgram s).1 := by
      injection hres
    have hstored : ∀ x ∈ sps.map StagePass.stored, x.type ≠ GL_NONE := by
      intro x hx
      obtain ⟨sp, hsp, rfl⟩ := List.mem_map.1 hx
      exact (hgood sp hsp).1
    refine ⟨?_, ?_, ?_, ?_, ?_, passEvents p sps, v, hv, ?_, ?_, ?_, ?_⟩
    · rw [hev, hsh, stages_append _ _ hne, stages_cons_sentinel _ he]
      simp [GLEvent.createdType?]
    · rw [hev, hpp]; simp [GLEvent.attached?, GLEvent.created?]
    · rw [harr, hev, stages_append _ _ hstored, stages_cons_sentinel _ he]
      simp [GLEvent.created?]
    · rw [harr, hsh, afterStages_append _ _ hstored, afterStages_append _ _ hne]
    · rw [hev]; simp [GLEvent.deleted?]
    · rw [hev, hpp]
    · simp
    · rw [hev, hpp]; simp [GLEvent.attached?]
    · rw [hev, hpp]; simp [GLEvent.created?]
  | linkFailed e post he =>
    injection hres with h0
    exact absurd h0 hp
  | compileFailed e post h source he hr =>
    injection hres with h0
    exact absurd h0 hp
  | sourceMissing e post h he hr =>
    by_cases hst : SentinelTerminated post
    · rw [if_pos hst] at hres
      injection hres with h0
      exact absurd h0 hp
    · rw [if_neg hst] at hres
      cases hres
  | readFault e post h f he hr =>
    cases hres
  | noSentinel =>
    rw [hsh, List.append_nil] at hsent
    exact absurd hsent (not_sentinelTerminated_of_all hne)

theorem LoadShaders_success_order_witness :
    SentinelTerminated initShaders ∧
    (LoadShaders (mockDriver 7 (fun _ => 1) 1) sampleFiles (some initShaders) 0).result
      = .ok 7 ∧
    createdTypes
      (LoadShaders (mockDriver 7 (fun _ => 1) 1) sampleFiles (some initShaders) 0).events =
      [GL_VERTEX_SHADER, GL_FRAGMENT_SHADER] ∧
    attachedShaders
      (LoadShaders (mockDriver 7 (fun _ => 1) 1) sampleFiles (some initShaders) 0).events =
      [(7, 1), (7, 2)] ∧
    deletedShaders
      (LoadShaders (mockDriver 7 (fun _ => 1) 1) sampleFiles (some initShaders) 0).events =
      [] :=
  have h := LoadShaders_success_order (mockDriver 7 (fun _ => 1) 1) sampleFiles initShaders 0 7
    (by decide) rfl (by decide)
  ⟨by decide, rfl, h.1, by decide, h.2.2.2.2.1⟩

/-! ## The handle returned on the success path, and `init` -/

/-- When every source loads and the driver reports every stage compiled and the program
linked, `LoadShaders` returns what `glCreateProgram` returned. -/
theorem LoadShaders_linked {σ : Type} (d : Driver σ) (fs : FileSystem)
    (shaders : List ShaderInfo) (s : σ)
    (hsent : SentinelTerminated shaders)
    (hload : ∀ e ∈ stages shaders, Loads fs e)
    (hcompiled : (0 : GLint) ∉ compileReplies (LoadShaders d fs (some shaders) s).events)
    (hlinked : (0 : GLint) ∉ linkReplies (LoadShaders d fs (some shaders) s).events) :
    (LoadShaders d fs (some shaders) s).result = .ok (d.glCreateProgram s).1 ∧
    createdPrograms (LoadShaders d fs (some shaders) s).events = [(d.glCreateProgram s).1] ∧
    usedPrograms (LoadShaders d fs (some shaders) s).events = [] := by
  obtain ⟨sps, post, tail, res, arr, hsh, hgood, hev, hres, harr, hend⟩ :=
    LoadShaders_run d fs shaders s
  have hne := entries_ne_none hgood
  cases hend with
  | linked e post v he hv =>
    refine ⟨hres, ?_, ?_⟩
    · rw [hev]; simp [GLEvent.createdProgram?]
    · rw [hev]; simp [GLEvent.used?]
  | linkFailed e post he =>
    refine absurd ?_ hlinked
    rw [hev]; simp [GLEvent.linkStatus?]
  | compileFailed e post h source he hr =>
    refine absurd ?_ hcompiled
    rw [hev]; simp [GLEvent.compileStatus?]
  | sourceMissing e post h he hr =>
    exact absurd (hload e (hsh ▸ mem_stages_of_split hne he)) (not_loads_of_null hr)
  | readFault e post h f he hr =>
    exact absurd (hload e (hsh ▸ mem_stages_of_split hne he)) (not_loads_of_fault hr)
  | noSentinel =>
    rw [hsh, List.append_nil] at hsent
    exact absurd hsent (not_sentinelTerminated_of_all hne)

/-- The calls of `init`: the buffer set-up, the calls of `LoadShaders` on `initShaders`,
and, when `LoadShaders` returns, `glUseProgram` on the value returned and the two
vertex-attribute calls. -/
theorem init_calls {σ : Type} (d : Driver σ) (fs : FileSystem) (g : Globals) (s : σ) :
    (∃ p, (LoadShaders d fs (some initShaders) (initBuffers d g s).2.1).result = .ok p ∧
        (init d fs g s).2.result = .ok () ∧
        (init d fs g s).2.events =
          (initBuffers d g s).2.2 ++
            (LoadShaders d fs (some initShaders) (initBuffers d g s).2.1).events ++
            [GLEvent.glUseProgram p,
              GLEvent.glVertexAttribPointer vPosition 2 GL_FLOAT GL_FALSE 0 0,
              GLEvent.glEnableVertexAttribArray vPosition]) ∨
      (∃ f, (LoadShaders d fs (some initShaders) (initBuffers d g s).2.1).result = .error f ∧
        (init d fs g s).2.result = .error f ∧
        (init d fs g s).2.events =
          (initBuffers d g s).2.2 ++
            (LoadShaders d fs (some initShaders) (initBuffers d g s).2.1).events) := by
  cases hres : (LoadShaders d fs (some initShaders) (initBuffers d g s).2.1).result with
  | error f => exact Or.inr ⟨f, rfl, by simp only [init, hres], by simp only [init, hres]⟩
  | ok p => exact Or.inl ⟨p, rfl, by simp only [init, hres], by simp only [init, hres]⟩

theorem initBuffers_replies {σ : Type} (d : Driver σ) (g : Globals) (s : σ) :
    compileReplies (initBuffers d g s).2.2 = [] ∧ linkReplies (initBuffers d g s).2.2 = [] ∧
    createdPrograms (initBuffers d g s).2.2 = [] ∧ usedPrograms (initBuffers d g s).2.2 = [] := by
  simp [initBuffers, GLEvent.compileStatus?, GLEvent.linkStatus?, GLEvent.createdProgram?,
    GLEvent.used?]

/-- C5. For every sentinel-terminated stage list, if every source file opens and is read
by `ReadShader`, the driver reports every stage compiled and the program linked, and the
driver gave out a program object (`glCreateProgram` returned a non-zero name, as a driver
does whenever the link it then reports is that of a program), then `LoadShaders` returns a
non-null handle, namely the handle `glCreateProgram` returned for that attempt; and under
the same conditions on its own stage list `[(Vertex, "triangles.vert"), (Fragment,
"triangles.frag"), (Sentinel)]`, `init` returns having made one `glCreateProgram` call
and exactly one `glUseProgram` call, the latter with the non-null handle the former
returned, which is the handle `LoadShaders` returned. -/
theorem LoadShaders_returns_created_program {σ : Type} (d : Driver σ) (fs : FileSystem)
    (shaders : List ShaderInfo) (g : Globals) (s : σ) :
    (SentinelTerminated shaders →
      (∀ e ∈ stages shaders, Loads fs e) →
      (0 : GLint) ∉ compileReplies (LoadShaders d fs (some shaders) s).events →
      (0 : GLint) ∉ linkReplies (LoadShaders d fs (some shaders) s).events →
      (d.glCreateProgram s).1 ≠ 0 →
      (LoadShaders d fs (some shaders) s).result = .ok (d.glCreateProgram s).1 ∧
      (LoadShaders d fs (some shaders) s).result ≠ .ok 0 ∧
      createdPrograms (LoadShaders d fs (some shaders) s).events =
        [(d.glCreateProgram s).1]) ∧
    ((∀ e ∈ stages initShaders, Loads fs e) →
      (0 : GLint) ∉ compileReplies (init d fs g s).2.events →
      (0 : GLint) ∉ linkReplies (init d fs g s).2.events →
      (d.glCreateProgram (initBuffers d g s).2.1).1 ≠ 0 →
      (init d fs g s).2.result = .ok () ∧
      ∃ p, p ≠ 0 ∧ p = (d.glCreateProgram (initBuffers d g s).2.1).1 ∧
        (LoadShaders d fs (some initShaders) (initBuffers d g s).2.1).result = .ok p ∧
        createdPrograms (init d fs g s).2.events = [p] ∧
        usedPrograms (init d fs g s).2.events = [p]) := by
  constructor
  · intro hsent hload hcompiled hlinked hprogram
    obtain ⟨h1, h2, _⟩ := LoadShaders_linked d fs shaders s hsent hload hcompiled hlinked
    refine ⟨h1, ?_, h2⟩
    rw [h1]
    intro h0
    injection h0 with h0
    exact hprogram h0
  · intro hload hcompiled hlinked hprogram
    obtain ⟨hb1, hb2, hb3, hb4⟩ := initBuffers_replies d g s
    rcases init_calls d fs g s with ⟨p, hp, hres, hev⟩ | ⟨f, hf, hres, hev⟩
    · rw [hev] at hcompiled hlinked
      simp [hb1, hb2, GLEvent.compileStatus?, GLEvent.linkStatus?] at hcompiled hlinked
      obtain ⟨h1, h2, h3⟩ := LoadShaders_linked d fs initShaders (initBuffers d g s).2.1
        (by decide) hload hcompiled hlinked
      rw [h1] at hp
      injection hp with hp
      subst hp
      refine ⟨hres, _, hprogram, rfl, h1, ?_, ?_⟩
      · rw [hev]; simp [hb3, h2, GLEvent.createdProgram?]
      · rw [hev]; simp [hb4, h3, GLEvent.used?]
    · rw [hev] at hcompiled hlinked
      simp [hb1, hb2] at hcompiled hlinked
      obtain ⟨h1, _, _⟩ := LoadShaders_linked d fs initShaders (initBuffers d g s).2.1
        (by decide) hload hcompiled hlinked
      rw [h1] at hf
      cases hf

theorem LoadShaders_returns_created_program_witness :
    (SentinelTerminated initShaders ∧
      (∀ e ∈ stages initShaders, Loads sampleFiles e) ∧
      (0 : GLint) ∉ compileReplies
        (LoadShaders (mockDriver 7 (fun _ => 1) 1) sampleFiles (some initShaders) 0).events ∧
      (0 : GLint) ∉ linkReplies
        (LoadShaders (mockDriver 7 (fun _ => 1) 1) sampleFiles (some initShaders) 0).events ∧
      ((mockDriver 7 (fun _ => 1) 1).glCreateProgram 0).1 ≠ 0 ∧
      (LoadShaders (mockDriver 7 (fun _ => 1) 1) sampleFiles (some initShaders) 0).result
        = .ok 7 ∧
      (LoadShaders (mockDriver 7 (fun _ => 1) 1) sampleFiles (some initShaders) 0).result
        ≠ .ok 0) ∧
    ((0 : GLint) ∉ compileReplies
        (init (mockDriver 7 (fun _ => 1) 1) sampleFiles ⟨[0], [0]⟩ 0).2.events ∧
      (0 : GLint) ∉ linkReplies
        (init (mockDriver 7 (fun _ => 1) 1) sampleFiles ⟨[0], [0]⟩ 0).2.events ∧
      (init (mockDriver 7 (fun _ => 1) 1) sampleFiles ⟨[0], [0]⟩ 0).2.result = .ok () ∧
      createdPrograms (init (mockDriver 7 (fun _ => 1) 1) sampleFiles ⟨[0], [0]⟩ 0).2.events
        = [7] ∧
      usedPrograms (init (mockDriver 7 (fun _ => 1) 1) sampleFiles ⟨[0], [0]⟩ 0).2.events
        = [7]) :=
  have h := LoadShaders_returns_created_program (mockDriver 7 (fun _ => 1) 1) sampleFiles
    initShaders ⟨[0], [0]⟩ 0
  have h1 := h.1 (by decide) (by decide) (by decide) (by decide) (by decide)
  ⟨⟨by decide, by decide, by decide, by decide, by decide, h1.1, h1.2.1⟩,
    ⟨by decide, by decide,
      (h.2 (by decide) (by decide) (by decide) (by decide)).1, by decide, by decide⟩⟩

/-! ## Source not found -/

theorem split_at_first_failure (P : ShaderInfo → Prop) {e : ShaderInfo}
    {post B : List ShaderInfo} (he : ¬ P e) (hB : ∀ b, B.head? = some b → ¬ P b) :
    ∀ (pre A : List ShaderInfo), pre ++ e :: post = A ++ B →
      (∀ x ∈ pre, P x) → (∀ x ∈ A, P x) → A = pre ∧ B = e :: post := by
  intro pre
  induction pre with
  | nil =>
    intro A h _ hA
    cases A with
    | nil => exact ⟨rfl, by simpa using h.symm⟩
    | cons a A =>
      simp only [List.nil_append, List.cons_append, List.cons.injEq] at h
      exact absurd (hA a (by simp)) (h.1 ▸ he)
  | cons x pre ih =>
    intro A h hpre hA
    cases A with
    | nil =>
      simp only [List.nil_append, List.cons_append] at h
      exact absurd (hpre x (by simp)) (hB x (by rw [← h]; rfl))
    | cons a A =>
      simp only [List.cons_append, List.cons.injEq] at h
      obtain ⟨h1, h2⟩ := ih A h.2 (fun y hy => hpre y (by simp [hy]))
        (fun y hy => hA y (by simp [hy]))
      exact ⟨by rw [h.1, h1], h2⟩

/-- C2 (as stated, refuted). On `[(Vertex, "missing.vert"), (Fragment, "ok.frag"),
(Sentinel)]` with `missing.vert` absent, `LoadShaders` returns 0 after one
`glCreateShader` call and two `glDeleteShader` calls: the handle created, and the handle
0 recorded in the fragment entry, which was never created. -/
theorem LoadShaders_missing_source_delete_count :
    sampleFiles "missing.vert" = none ∧
    SentinelTerminated missingVertexShaders ∧
    (LoadShaders (mockDriver 7 (fun _ => 1) 1) sampleFiles
      (some missingVertexShaders) 0).result = .ok 0 ∧
    (LoadShaders (mockDriver 7 (fun _ => 1) 1) sampleFiles
      (some missingVertexShaders) 0).events =
      [GLEvent.glCreateProgram 7, GLEvent.glCreateShader GL_VERTEX_SHADER 1,
        GLEvent.glDeleteShader 1, GLEvent.glDeleteShader 0] ∧
    (createdShaders (LoadShaders (mockDriver 7 (fun _ => 1) 1) sampleFiles
      (some missingVertexShaders) 0).events).length = 1 ∧
    (deletedShaders (LoadShaders (mockDriver 7 (fun _ => 1) 1) sampleFiles
      (some missingVertexShaders) 0).events).length = 2 :=
  ⟨by decide, by decide, rfl, by decide, by decide, by decide⟩

/-- C2 (amended). For every stage list `pre ++ e :: post` in which `e` is the first stage
whose source file cannot be opened (`ReadShader` returns `NULL`), the stages `pre` in
front of it load and are reported compiled, and a sentinel follows in `post`:
`LoadShaders` returns 0; it made one `glCreateShader` call per stage up to and including
`e`, attached the stages in front of `e` only and never linked; after all other calls it
made one `glDeleteShader` call per entry in front of the sentinel, first with the handles
created, in order, then with the handles recorded in the entries between `e` and the
sentinel, so every handle created is deleted and the number of `glDeleteShader` calls is
the number of entries in front of the sentinel; and every such entry is left with handle
0. -/
theorem LoadShaders_source_missing {σ : Type} (d : Driver σ) (fs : FileSystem)
    (pre : List ShaderInfo) (e : ShaderInfo) (post : List ShaderInfo) (s : σ)
    (hpre : ∀ x ∈ pre, x.type ≠ GL_NONE ∧ Loads fs x)
    (he : e.type ≠ GL_NONE)
    (hmissing : ReadShader fs e.filename = .ok none)
    (hsent : SentinelTerminated post)
    (hcompiled : (0 : GLint) ∉
      compileReplies (LoadShaders d fs (some (pre ++ e :: post)) s).events) :
    (LoadShaders d fs (some (pre ++ e :: post)) s).result = .ok 0 ∧
    (createdShaders (LoadShaders d fs (some (pre ++ e :: post)) s).events).length
      = pre.length + 1 ∧
    (attachedShaders (LoadShaders d fs (some (pre ++ e :: post)) s).events).length
      = pre.length ∧
    linkedPrograms (LoadShaders d fs (some (pre ++ e :: post)) s).events = [] ∧
    deletedShaders (LoadShaders d fs (some (pre ++ e :: post)) s).events =
      createdShaders (LoadShaders d fs (some (pre ++ e :: post)) s).events ++
        (stages post).map ShaderInfo.shader ∧
    (∀ h ∈ createdShaders (LoadShaders d fs (some (pre ++ e :: post)) s).events,
      h ∈ deletedShaders (LoadShaders d fs (some (pre ++ e :: post)) s).events) ∧
    (deletedShaders (LoadShaders d fs (some (pre ++ e :: post)) s).events).length =
      (stages (pre ++ e :: post)).length ∧
    (∃ before, deletedShaders before = [] ∧
      (LoadShaders d fs (some (pre ++ e :: post)) s).events =
        before ++ (createdShaders before ++ (stages post).map ShaderInfo.shader).map
          GLEvent.glDeleteShader) ∧
    (∀ x ∈ stages (LoadShaders d fs (some (pre ++ e :: post)) s).shaders, x.shader = 0) := by
  obtain ⟨sps, post1, tail, res, arr, hsh, hgood, hev, hres, harr, hend⟩ :=
    LoadShaders_run d fs (pre ++ e :: post) s
  have hne := entries_ne_none hgood
  have hPe : ¬ (e.type ≠ GL_NONE ∧ Loads fs e) := fun h => not_loads_of_null hmissing h.2
  have hA : ∀ x ∈ sps.map StagePass.entry, x.type ≠ GL_NONE ∧ Loads fs x := by
    intro x hx
    obtain ⟨sp, hsp, rfl⟩ := List.mem_map.1 hx
    exact ⟨(hgood sp hsp).1, loads_of_source (hgood sp hsp).2.1⟩
  have hsplit : ∀ (hB : ∀ b, post1.head? = some b → ¬ (b.type ≠ GL_NONE ∧ Loads fs b)),
      sps.map StagePass.entry = pre ∧ post1 = e :: post := fun hB =>
    split_at_first_failure (fun x => x.type ≠ GL_NONE ∧ Loads fs x) hPe hB pre _ hsh
      (fun x hx => hpre x hx) hA
  cases hend with
  | linked e1 post2 v he1 hv =>
    obtain ⟨_, h2⟩ := hsplit (by
      intro b hb
      simp only [List.head?_cons, Option.some.injEq] at hb
      subst hb
      exact fun h => h.1 he1)
    injection h2 with h2 _
    exact absurd (h2 ▸ he1) he
  | linkFailed e1 post2 he1 =>
    obtain ⟨_, h2⟩ := hsplit (by
      intro b hb
      simp only [List.head?_cons, Option.some.injEq] at hb
      subst hb
      exact fun h => h.1 he1)
    injection h2 with h2 _
    exact absurd (h2 ▸ he1) he
  | compileFailed e1 post2 h source he1 hr =>
    refine absurd ?_ hcompiled
    rw [hev]; simp [GLEvent.compileStatus?]
  | sourceMissing e1 post2 h he1 hr =>
    obtain ⟨h1, h2⟩ := hsplit (by
      intro b hb
      simp only [List.head?_cons, Option.some.injEq] at hb
      subst hb
      exact fun h => not_loads_of_null hr h.2)
    injection h2 with h2 h3
    subst h2 h3
    have hlen : sps.length = pre.length := by
      rw [← h1]; simp
    have hcr : createdShaders (LoadShaders d fs (some (pre ++ e1 :: post2)) s).events =
        sps.map StagePass.shader ++ [h] := by
      rw [hev]; simp [GLEvent.created?]
    have hdl : deletedShaders (LoadShaders d fs (some (pre ++ e1 :: post2)) s).events =
        sps.map StagePass.shader ++ h :: (stages post2).map ShaderInfo.shader := by
      rw [hev]; simp [GLEvent.deleted?]
    have hpre2 : ∀ x ∈ pre, x.type ≠ GL_NONE := fun x hx => (hpre x hx).1
    refine ⟨?_, ?_, ?_, ?_, ?_, ?_, ?_, ?_, ?_⟩
    · rw [hres, if_pos hsent]
    · rw [hcr]; simp [hlen]
    · rw [hev]; simp [GLEvent.attached?, hlen]
    · rw [hev]; simp [GLEvent.linked?]
    · rw [hcr, hdl]; simp
    · rw [hcr, hdl]
      intro x hx
      simp only [List.mem_append, List.mem_singleton] at hx
      rcases hx with hx | hx
      · exact List.mem_append.2 (Or.inl hx)
      · exact List.mem_append.2 (Or.inr (by simp [hx]))
    · rw [hdl, stages_append _ _ hpre2, stages_cons_stage _ he]
      simp [hlen]
    · refine ⟨[GLEvent.glCreateProgram (d.glCreateProgram s).1] ++
          passEvents (d.glCreateProgram s).1 sps ++ [GLEvent.glCreateShader e1.type h], ?_, ?_⟩
      · simp [GLEvent.deleted?]
      · rw [hev]
        simp [GLEvent.created?, deleteEvents_eq]
    · rw [harr]
      intro x hx
      have hx2 := shader_eq_zero_of_mem_stages_reset _ _ x hx
      rcases hx2 with h4 | h4
      · obtain ⟨y, _, rfl⟩ := List.mem_map.1 h4
        rfl
      · have hnil : stages (afterStages post2) = [] := by
          obtain ⟨z, hz, hz0⟩ := hsent
          have hsplit2 := stages_append_afterStages post2
          cases haf : afterStages post2 with
          | nil =>
            rw [haf, List.append_nil] at hsplit2
            rw [← hsplit2] at hz
            exact absurd hz0 (type_ne_of_mem_stages hz)
          | cons w ws =>
            have hw : w.type = GL_NONE := by
              have := List.head_dropWhile_not (fun e => decide (e.type ≠ GL_NONE)) post2
                (by
                  have : afterStages post2 ≠ [] := by rw [haf]; simp
                  simpa [afterStages] using this)
              simp only [afterStages] at haf
              simp only [haf, List.head_cons] at this
              simpa using this
            exact stages_cons_sentinel _ hw
        rw [hnil] at h4
        simp at h4
  | readFault e1 post2 h f he1 hr =>
    obtain ⟨_, h2⟩ := hsplit (by
      intro b hb
      simp only [List.head?_cons, Option.some.injEq] at hb
      subst hb
      exact fun h => not_loads_of_fault hr h.2)
    injection h2 with h2 _
    subst h2
    rw [hmissing] at hr
    cases hr
  | noSentinel =>
    obtain ⟨_, h2⟩ := hsplit (by intro b hb; simp at hb)
    cases h2

theorem LoadShaders_source_missing_witness :
    (∀ x ∈ ([] : List ShaderInfo), x.type ≠ GL_NONE ∧ Loads sampleFiles x) ∧
    GL_VERTEX_SHADER ≠ GL_NONE ∧
    ReadShader sampleFiles (some "missing.vert") = .ok none ∧
    SentinelTerminated [⟨GL_FRAGMENT_SHADER, some "ok.frag", 0⟩, ⟨GL_NONE, none, 0⟩] ∧
    (0 : GLint) ∉ compileReplies (LoadShaders (mockDriver 7 (fun _ => 1) 1) sampleFiles
      (some missingVertexShaders) 0).events ∧
    (LoadShaders (mockDriver 7 (fun _ => 1) 1) sampleFiles
      (some missingVertexShaders) 0).result = .ok 0 ∧
    createdShaders (LoadShaders (mockDriver 7 (fun _ => 1) 1) sampleFiles
      (some missingVertexShaders) 0).events = [1] ∧
    deletedShaders (LoadShaders (mockDriver 7 (fun _ => 1) 1) sampleFiles
      (some missingVertexShaders) 0).events = [1, 0] ∧
    (attachedShaders (LoadShaders (mockDriver 7 (fun _ => 1) 1) sampleFiles
      (some missingVertexShaders) 0).events).length = 0 :=
  have h := LoadShaders_source_missing (mockDriver 7 (fun _ => 1) 1) sampleFiles []
    ⟨GL_VERTEX_SHADER, some "missing.vert", 0⟩
    [⟨GL_FRAGMENT_SHADER, some "ok.frag", 0⟩, ⟨GL_NONE, none, 0⟩] 0
    (by simp) (by decide) rfl (by decide) (by decide)
  ⟨by simp, by decide, rfl, by decide, by decide, h.1, by decide, by decide, h.2.2.1⟩

/-! ## The program container -/

/-- C8 (as stated, refuted). On a one-stage list whose link the driver reports as failed,
`LoadShaders` returns 0 having obtained program handle 7 from `glCreateProgram` and made
no `glDeleteProgram` call. -/
theorem LoadShaders_link_failed_keeps_program :
    SentinelTerminated vertexOnly ∧
    linkReplies
      (LoadShaders (mockDriver 7 (fun _ => 1) 0) sampleFiles (some vertexOnly) 0).events
      = [0] ∧
    (LoadShaders (mockDriver 7 (fun _ => 1) 0) sampleFiles (some vertexOnly) 0).result
      = .ok 0 ∧
    createdPrograms
      (LoadShaders (mockDriver 7 (fun _ => 1) 0) sampleFiles (some vertexOnly) 0).events
      = [7] ∧
    deletedPrograms
      (LoadShaders (mockDriver 7 (fun _ => 1) 0) sampleFiles (some vertexOnly) 0).events
      = [] ∧
    GLEvent.glDeleteProgram 7 ∉
      (LoadShaders (mockDriver 7 (fun _ => 1) 0) sampleFiles (some vertexOnly) 0).events :=
  ⟨by decide, by decide, rfl, by decide, by decide, by decide⟩

/-- C8 (amended). Every call of `LoadShaders` on an array makes one `glCreateProgram` call
and no `glDeleteProgram` call: the program container is not released on any exit.  On the
exit taken when the driver reports the link failed, and on the exit that returns 0 without
a failed compile-status reply and without a link-status query (source not found), every
handle `glCreateShader` returned has been passed to `glDeleteShader`. -/
theorem LoadShaders_never_deletes_program {σ : Type} (d : Driver σ) (fs : FileSystem)
    (shaders : List ShaderInfo) (s : σ) :
    createdPrograms (LoadShaders d fs (some shaders) s).events = [(d.glCreateProgram s).1] ∧
    deletedPrograms (LoadShaders d fs (some shaders) s).events = [] ∧
    ((0 : GLint) ∈ linkReplies (LoadShaders d fs (some shaders) s).events →
      ∀ h ∈ createdShaders (LoadShaders d fs (some shaders) s).events,
        h ∈ deletedShaders (LoadShaders d fs (some shaders) s).events) ∧
    ((LoadShaders d fs (some shaders) s).result = .ok 0 →
      linkReplies (LoadShaders d fs (some shaders) s).events = [] →
      (0 : GLint) ∉ compileReplies (LoadShaders d fs (some shaders) s).events →
      ∀ h ∈ createdShaders (LoadShaders d fs (some shaders) s).events,
        h ∈ deletedShaders (LoadShaders d fs (some shaders) s).events) := by
  obtain ⟨sps, post, tail, res, arr, hsh, hgood, hev, hres, harr, hend⟩ :=
    LoadShaders_run d fs shaders s
  rw [hev]
  cases hend with
  | linked e post v he hv =>
    refine ⟨by simp [GLEvent.createdProgram?], by simp [GLEvent.deletedProgram?], ?_, ?_⟩
    · intro hl
      simp [GLEvent.linkStatus?] at hl
      exact absurd hl.symm hv
    · intro _ hl
      simp [GLEvent.linkStatus?] at hl
  | linkFailed e post he =>
    refine ⟨by simp [GLEvent.createdProgram?], by simp [GLEvent.deletedProgram?], ?_, ?_⟩
    · intro _ h hh
      simp [GLEvent.created?] at hh
      simp [GLEvent.deleted?]
      exact hh
    · intro _ hl
      simp [GLEvent.linkStatus?] at hl
  | compileFailed e post h source he hr =>
    refine ⟨by simp [GLEvent.createdProgram?], by simp [GLEvent.deletedProgram?], ?_, ?_⟩
    · intro hl
      simp [GLEvent.linkStatus?] at hl
    · intro _ _ hc
      simp [GLEvent.compileStatus?] at hc
  | sourceMissing e post h he hr =>
    refine ⟨by simp [GLEvent.createdProgram?], by simp [GLEvent.deletedProgram?], ?_, ?_⟩
    · intro hl
      simp [GLEvent.linkStatus?] at hl
    · intro _ _ _ x hx
      simp [GLEvent.created?] at hx
      simp [GLEvent.deleted?]
      rcases hx with hx | hx
      · exact Or.inl hx
      · exact Or.inr (Or.inl hx)
  | readFault e post h f he hr =>
    refine ⟨by simp [GLEvent.createdProgram?], by simp [GLEvent.deletedProgram?], ?_, ?_⟩
    · intro hl
      simp [GLEvent.linkStatus?] at hl
    · intro h0
      rw [hres] at h0
      cases h0
  | noSentinel =>
    refine ⟨by simp [GLEvent.createdProgram?], by simp [GLEvent.deletedProgram?], ?_, ?_⟩
    · intro hl
      simp [GLEvent.linkStatus?] at hl
    · intro h0
      rw [hres] at h0
      cases h0

theorem LoadShaders_never_deletes_program_witness :
    ((0 : GLint) ∈ linkReplies
      (LoadShaders (mockDriver 7 (fun _ => 1) 0) sampleFiles (some vertexOnly) 0).events ∧
      ∀ h ∈ createdShaders
          (LoadShaders (mockDriver 7 (fun _ => 1) 0) sampleFiles (some vertexOnly) 0).events,
        h ∈ deletedShaders
          (LoadShaders (mockDriver 7 (fun _ => 1) 0) sampleFiles (some vertexOnly) 0).events) ∧
    ((LoadShaders (mockDriver 7 (fun _ => 1) 1) sampleFiles
        (some missingVertexShaders) 0).result = .ok 0 ∧
      linkReplies (LoadShaders (mockDriver 7 (fun _ => 1) 1) sampleFiles
        (some missingVertexShaders) 0).events = [] ∧
      (0 : GLint) ∉ compileReplies (LoadShaders (mockDriver 7 (fun _ => 1) 1) sampleFiles
        (some missingVertexShaders) 0).events ∧
      ∀ h ∈ createdShaders (LoadShaders (mockDriver 7 (fun _ => 1) 1) sampleFiles
          (some missingVertexShaders) 0).events,
        h ∈ deletedShaders (LoadShaders (mockDriver 7 (fun _ => 1) 1) sampleFiles
          (some missingVertexShaders) 0).events) :=
  ⟨⟨by decide,
      (LoadShaders_never_deletes_program (mockDriver 7 (fun _ => 1) 0) sampleFiles
        vertexOnly 0).2.2.1 (by decide)⟩,
    ⟨rfl, by decide, by decide,
      (LoadShaders_never_deletes_program (mockDriver 7 (fun _ => 1) 1) sampleFiles
        missingVertexShaders 0).2.2.2 rfl (by decide) (by decide)⟩⟩

/-! ## The compile-failure exit leaves the stage handles alone -/

/-- C1 (the code at the failing input). On a one-stage list whose source loads and whose
compilation the driver reports as failed, `LoadShaders` returns 0 having created stage
handle 1 and made no `glDeleteShader` call; the handle stays recorded in its entry. -/
theorem LoadShaders_compile_failure_leaks :
    SentinelTerminated vertexOnly ∧
    compileReplies
      (LoadShaders (mockDriver 7 (fun _ => 0) 1) sampleFiles (some vertexOnly) 0).events
      = [0] ∧
    (LoadShaders (mockDriver 7 (fun _ => 0) 1) sampleFiles (some vertexOnly) 0).result
      = .ok 0 ∧
    createdShaders
      (LoadShaders (mockDriver 7 (fun _ => 0) 1) sampleFiles (some vertexOnly) 0).events
      = [1] ∧
    deletedShaders
      (LoadShaders (mockDriver 7 (fun _ => 0) 1) sampleFiles (some vertexOnly) 0).events
      = [] ∧
    (LoadShaders (mockDriver 7 (fun _ => 0) 1) sampleFiles (some vertexOnly) 0).shaders
      = [⟨GL_VERTEX_SHADER, some "triangles.vert", 1⟩, ⟨GL_NONE, none, 0⟩] :=
  ⟨by decide, by decide, rfl, by decide, by decide, by decide⟩

/-! ## Empty stage lists -/

/-- C4 (as stated, refuted). On the list holding the sentinel entry only, with a driver
that reports the (empty) program linked, `LoadShaders` makes a `glCreateProgram` call and
returns the handle 7 it obtained, not 0. -/
theorem LoadShaders_sentinel_only_creates_program :
    (LoadShaders (mockDriver 7 (fun _ => 1) 1) sampleFiles (some sentinelOnly) 0).result
      = .ok 7 ∧
    (LoadShaders (mockDriver 7 (fun _ => 1) 1) sampleFiles (some sentinelOnly) 0).events =
      [GLEvent.glCreateProgram 7, GLEvent.glLinkProgram 7,
        GLEvent.glGetProgramiv 7 GL_LINK_STATUS 1] ∧
    createdPrograms
      (LoadShaders (mockDriver 7 (fun _ => 1) 1) sampleFiles (some sentinelOnly) 0).events
      = [7] :=
  ⟨rfl, by decide, by decide⟩

/-- C4 (amended). For the null pointer `LoadShaders` returns 0 and makes no driver call.
For the list holding the sentinel entry only it makes no `glCreateShader` call, but it
does create a program and link it: its calls are `glCreateProgram`, `glLinkProgram` and
the link-status query, and it returns 0 if the driver reports the link failed and the
program handle otherwise. -/
theorem LoadShaders_empty_list {σ : Type} (d : Driver σ) (fs : FileSystem) (s : σ)
    (filename : Option String) (shader : GLuint) :
    ((LoadShaders d fs none s).result = .ok 0 ∧ (LoadShaders d fs none s).events = []) ∧
    (LoadShaders d fs (some [⟨GL_NONE, filename, shader⟩]) s).events =
      [GLEvent.glCreateProgram (d.glCreateProgram s).1,
        GLEvent.glLinkProgram (d.glCreateProgram s).1,
        GLEvent.glGetProgramiv (d.glCreateProgram s).1 GL_LINK_STATUS
          (d.glGetProgramiv (d.glCreateProgram s).1 GL_LINK_STATUS
            (d.glLinkProgram (d.glCreateProgram s).1 (d.glCreateProgram s).2)).1] ∧
    createdShaders (LoadShaders d fs (some [⟨GL_NONE, filename, shader⟩]) s).events = [] ∧
    (LoadShaders d fs (some [⟨GL_NONE, filename, shader⟩]) s).result =
      .ok (if (d.glGetProgramiv (d.glCreateProgram s).1 GL_LINK_STATUS
            (d.glLinkProgram (d.glCreateProgram s).1 (d.glCreateProgram s).2)).1 = 0
          then 0 else (d.glCreateProgram s).1) := by
  refine ⟨⟨rfl, rfl⟩, ?_⟩
  by_cases hl : (d.glGetProgramiv (d.glCreateProgram s).1 GL_LINK_STATUS
      (d.glLinkProgram (d.glCreateProgram s).1 (d.glCreateProgram s).2)).1 = 0
  · simp [LoadShaders, loadLoop, deleteAndFail, deleteShaders, hl, GLEvent.created?]
  · simp [LoadShaders, loadLoop, hl, GLEvent.created?]

/-! ## `ReadShader` -/

theorem toInt_of_lt {n : Int} (h0 : 0 ≤ n) (h : n < 2 ^ 31) : toInt n = n := by
  unfold toInt
  rw [Int.emod_eq_of_lt (by omega) (by omega)]
  omega

/-- C6 (as stated, refuted). A file of `2 ^ 32` bytes opens, yet `ReadShader` returns the
one-byte buffer holding only the terminator, not a buffer of `2 ^ 32 + 1` bytes. -/
theorem ReadShader_huge_file :
    (hugeFiles "huge.vert").map List.length = some (2 ^ 32) ∧
    ReadShader hugeFiles (some "huge.vert") = .ok (some [0]) := by
  have hlen : (List.replicate hugeLength (0 : GLchar)).length = hugeLength :=
    List.length_replicate _ _
  have h : toInt (hugeLength : Int) = 0 := by
    unfold toInt hugeLength; norm_num
  constructor
  · simp only [hugeFiles, Option.map_some', hlen]
    rfl
  · simp only [ReadShader, hugeFiles, hlen, h, INT_MAX]
    norm_num

/-- C6 (amended). For every file that can be opened, with byte content `b` of length
`n < 2 ^ 31 - 1` (so that `n + 1` fits the `int` holding the length), `ReadShader` returns
a buffer of length `n + 1` whose first `n` bytes equal `b` and whose last byte is the
terminator 0; for a path that cannot be opened it returns `NULL`. -/
theorem ReadShader_roundtrip (fs : FileSystem) (filename : String) :
    (fs filename = none → ReadShader fs (some filename) = .ok none) ∧
    (∀ b : List GLchar, fs filename = some b → (b.length : Int) < 2 ^ 31 - 1 →
      ∃ buffer, ReadShader fs (some filename) = .ok (some buffer) ∧
        buffer = b ++ [0] ∧
        buffer.length = b.length + 1 ∧
        buffer.take b.length = b ∧
        buffer[b.length]? = some 0 ∧
        buffer.getLast? = some 0) := by
  constructor
  · intro h
    simp [ReadShader, h]
  · intro b hb hlen
    have ht : toInt (b.length : Int) = b.length :=
      toInt_of_lt (Int.natCast_nonneg _) (by omega)
    refine ⟨b ++ [0], ?_, rfl, by simp, by simp, by simp, by simp⟩
    simp only [ReadShader, hb, ht, INT_MAX]
    have h2 : ¬ ((b.length : Int) + 1 < 0) := by omega
    have h3 : ¬ ((b.length : Int) < 0) := by omega
    simp [h2, h3]
    omega

theorem ReadShader_roundtrip_witness :
    sampleFiles "triangles.vert" = some [35, 118] ∧
    (([35, 118] : List GLchar).length : Int) < 2 ^ 31 - 1 ∧
    sampleFiles "missing.vert" = none ∧
    ReadShader sampleFiles (some "missing.vert") = .ok none ∧
    ∃ buffer, ReadShader sampleFiles (some "triangles.vert") = .ok (some buffer) ∧
      buffer = [35, 118, 0] :=
  ⟨by decide, by decide, by decide,
    (ReadShader_roundtrip sampleFiles "missing.vert").1 (by decide),
    let ⟨buffer, h1, h2, _⟩ :=
      (ReadShader_roundtrip sampleFiles "triangles.vert").2 [35, 118] (by decide) (by decide)
    ⟨buffer, h1, h2⟩⟩

/-! ## `display` -/

/-- C7. From every driver state and whatever the globals hold, `display` issues exactly
one draw command, `glDrawArrays(GL_TRIANGLES, 0, 6)`, and the call right in front of it is
`glBindVertexArray(VAOs[Triangles])`. -/
theorem display_draws_once {σ : Type} (d : Driver σ) (g : Globals) (s : σ) :
    drawCalls (display d g s).2 = [GLEvent.glDrawArrays GL_TRIANGLES 0 6] ∧
    (drawCalls (display d g s).2).length = 1 ∧
    ∃ before after,
      (display d g s).2 =
        before ++ [GLEvent.glBindVertexArray (g.VAOs.getD Triangles 0),
          GLEvent.glDrawArrays GL_TRIANGLES 0 6] ++ after ∧
      drawCalls before = [] ∧ drawCalls after = [] := by
  refine ⟨?_, ?_, [GLEvent.glClear GL_COLOR_BUFFER_BIT], [GLEvent.glFinish], ?_, ?_, ?_⟩
  · simp [display, drawCalls, GLEvent.isDraw, NumVertices]
  · simp [display, drawCalls, GLEvent.isDraw]
  · simp [display, NumVertices]
  · simp [drawCalls, GLEvent.isDraw]
  · simp [drawCalls, GLEvent.isDraw]

end RedBook
